import Mathlib

/-!
Verification development for the turbopuffer-gui documents store
(`src/renderer/stores/documentsStore.ts`): the query compiler, pagination
cursor tracker, result cache and load orchestrator are embedded shallowly
and the specification claims about them are settled as theorems.

JavaScript values flowing through the compiler are modelled by the
inductive `JVal`; JS numbers are modelled as rationals (no float rounding
occurs in the modelled code paths).
-/

deriving instance DecidableEq for Except

namespace TpufGui

/-- A JavaScript value as it appears in compiled queries and documents.
`undef` models JS `undefined` (distinct from `null`). -/
inductive JVal : Type where
  | s (x : String)
  | n (q : Rat)
  | b (x : Bool)
  | arr (xs : List JVal)
  | obj (fields : List (String × JVal))
  | null
  | undef

mutual

/-- Decidable equality for `JVal` (hand-written: `JVal` nests `List`). -/
def JVal.decEq : (a b : JVal) → Decidable (a = b)
  | .s x, .s y =>
    if h : x = y then .isTrue (congrArg JVal.s h)
    else .isFalse (fun hh => h (JVal.s.inj hh))
  | .n x, .n y =>
    if h : x = y then .isTrue (congrArg JVal.n h)
    else .isFalse (fun hh => h (JVal.n.inj hh))
  | .b x, .b y =>
    if h : x = y then .isTrue (congrArg JVal.b h)
    else .isFalse (fun hh => h (JVal.b.inj hh))
  | .arr xs, .arr ys =>
    match JVal.decEqList xs ys with
    | .isTrue h => .isTrue (congrArg JVal.arr h)
    | .isFalse h => .isFalse (fun hh => h (JVal.arr.inj hh))
  | .obj fs, .obj gs =>
    match JVal.decEqFields fs gs with
    | .isTrue h => .isTrue (congrArg JVal.obj h)
    | .isFalse h => .isFalse (fun hh => h (JVal.obj.inj hh))
  | .null, .null => .isTrue rfl
  | .undef, .undef => .isTrue rfl
  | .s _, .n _ | .s _, .b _ | .s _, .arr _ | .s _, .obj _ | .s _, .null | .s _, .undef =>
    .isFalse (fun h => JVal.noConfusion h)
  | .n _, .s _ | .n _, .b _ | .n _, .arr _ | .n _, .obj _ | .n _, .null | .n _, .undef =>
    .isFalse (fun h => JVal.noConfusion h)
  | .b _, .s _ | .b _, .n _ | .b _, .arr _ | .b _, .obj _ | .b _, .null | .b _, .undef =>
    .isFalse (fun h => JVal.noConfusion h)
  | .arr _, .s _ | .arr _, .n _ | .arr _, .b _ | .arr _, .obj _ | .arr _, .null | .arr _, .undef =>
    .isFalse (fun h => JVal.noConfusion h)
  | .obj _, .s _ | .obj _, .n _ | .obj _, .b _ | .obj _, .arr _ | .obj _, .null | .obj _, .undef =>
    .isFalse (fun h => JVal.noConfusion h)
  | .null, .s _ | .null, .n _ | .null, .b _ | .null, .arr _ | .null, .obj _ | .null, .undef =>
    .isFalse (fun h => JVal.noConfusion h)
  | .undef, .s _ | .undef, .n _ | .undef, .b _ | .undef, .arr _ | .undef, .obj _ | .undef, .null =>
    .isFalse (fun h => JVal.noConfusion h)

/-- Decidable equality for lists of `JVal`. -/
def JVal.decEqList : (xs ys : List JVal) → Decidable (xs = ys)
  | [], [] => .isTrue rfl
  | x :: xs, y :: ys =>
    match JVal.decEq x y with
    | .isFalse h => .isFalse (fun hh => h (List.cons.inj hh).1)
    | .isTrue h1 =>
      match JVal.decEqList xs ys with
      | .isTrue h2 => .isTrue (by rw [h1, h2])
      | .isFalse h2 => .isFalse (fun hh => h2 (List.cons.inj hh).2)
  | [], _ :: _ => .isFalse (fun h => List.noConfusion h)
  | _ :: _, [] => .isFalse (fun h => List.noConfusion h)

/-- Decidable equality for JS object field lists. -/
def JVal.decEqFields : (xs ys : List (String × JVal)) → Decidable (xs = ys)
  | [], [] => .isTrue rfl
  | (k1, v1) :: xs, (k2, v2) :: ys =>
    if hk : k1 = k2 then
      match JVal.decEq v1 v2 with
      | .isFalse h => .isFalse (fun hh => h (Prod.mk.inj (List.cons.inj hh).1).2)
      | .isTrue hv =>
        match JVal.decEqFields xs ys with
        | .isTrue ht => .isTrue (by rw [hk, hv, ht])
        | .isFalse ht => .isFalse (fun hh => ht (List.cons.inj hh).2)
    else .isFalse (fun hh => hk (Prod.mk.inj (List.cons.inj hh).1).1)
  | [], _ :: _ => .isFalse (fun h => List.noConfusion h)
  | _ :: _, [] => .isFalse (fun h => List.noConfusion h)

end

instance : DecidableEq JVal := JVal.decEq

/-- Field lookup on a JS object value; `none` models `undefined`. -/
def jvalLookup (name : String) : JVal → Option JVal
  | .obj fields => (fields.find? (fun p => p.1 = name)).map (fun p => p.2)
  | _ => none

/-- `Array.isArray(v) ? v[0] : v` — first element of an array value
(`undefined` when the array is empty), the value itself otherwise. -/
def jsFirstOrSelf : JVal → JVal
  | .arr (x :: _) => x
  | .arr [] => .undef
  | v => v

/-- Coerce to an array as the `in`/`not_in` compilation does:
an array value stays, a scalar becomes a one-element array. -/
def jsEnsureArr : JVal → JVal
  | .arr xs => .arr xs
  | v => .arr [v]

/-- Rendering of a rational as a JS number string. Integers render exactly;
non-integers keep Lean's `num/den` form (the modelled code never compares
these strings, they only feed display values and glob templates). -/
def ratToJsString (q : Rat) : String :=
  if q.den = 1 then toString q.num else toString q.num ++ "/" ++ toString q.den

mutual

/-- JS `String(v)` template coercion, used by the `contains` glob template
and display values. Arrays join their elements with `,` and render
`null`/`undefined` elements as the empty string, as JS `Array.toString` does. -/
def jsStringOf : JVal → String
  | .s x => x
  | .n q => ratToJsString q
  | .b true => "true"
  | .b false => "false"
  | .null => "null"
  | .undef => "undefined"
  | .obj _ => "[object Object]"
  | .arr xs => String.intercalate "," (jsElemStrings xs)

/-- Array elements under JS `Array.toString`: `null`/`undefined` render empty. -/
def jsElemStrings : List JVal → List String
  | [] => []
  | .null :: rest => "" :: jsElemStrings rest
  | .undef :: rest => "" :: jsElemStrings rest
  | v :: rest => jsStringOf v :: jsElemStrings rest

end

/-- A document row returned by the backend (`id` plus attributes). -/
structure Document : Type where
  id : JVal
  attributes : List (String × JVal)
deriving DecidableEq

/-- The filter operators of the store (`FilterOperator` union,
documentsStore.ts lines 20-40). `in_` embeds the source's `in`
(a Lean keyword). -/
inductive FilterOperator : Type where
  | equals | not_equals
  | contains
  | greater | greater_or_equal | less | less_or_equal
  | in_ | not_in
  | matches | not_matches | imatches | not_imatches
  | any_lt | any_lte | any_gt | any_gte
  | array_contains | not_array_contains
  | contains_any | not_contains_any
  | regex
  | contains_all_tokens | contains_token_sequence
deriving DecidableEq

/-- One active predicate (`SimpleFilter`, documentsStore.ts lines 42-48). -/
structure SimpleFilter : Type where
  id : String
  «attribute» : String
  operator : FilterOperator
  value : JVal
  displayValue : String
deriving DecidableEq

/-- A discovered attribute as the compiler consumes it: only `name` and
`type` are read by the query-compilation and BM25-fallback code; the other
statistics fields of `DiscoveredAttribute` are irrelevant here. -/
structure DiscoveredAttribute : Type where
  name : String
  type : String
deriving DecidableEq

/-- Query mode union `'browse' | 'bm25' | 'vector'`. -/
inductive QueryMode : Type where
  | browse | bm25 | vector
deriving DecidableEq

/-- Sort direction union `'asc' | 'desc'`. -/
inductive SortDirection : Type where
  | asc | desc
deriving DecidableEq

/-- The string the direction contributes to a compiled `rank_by`. -/
def dirString : SortDirection → String
  | .asc => "asc"
  | .desc => "desc"

/-- Ranking mode union `'simple' | 'expression'`. -/
inductive RankingMode : Type where
  | simple | expression
deriving DecidableEq

/-- A ranking expression tree node (`RankingExprNode` from the ranking
expression builder: tagged by `type` with `attribute`, `constant` or
`operator`/`operands` payloads). -/
inductive RankingExprNode : Type where
  | «attribute» (a : String)
  | constant (c : JVal)
  | operator (op : String) (operands : List RankingExprNode)

mutual

/-- Decidable equality for `RankingExprNode` (hand-written: nested `List`). -/
def RankingExprNode.decEq : (a b : RankingExprNode) → Decidable (a = b)
  | .«attribute» x, .«attribute» y =>
    if h : x = y then .isTrue (congrArg RankingExprNode.«attribute» h)
    else .isFalse (fun hh => h (RankingExprNode.«attribute».inj hh))
  | .constant x, .constant y =>
    if h : x = y then .isTrue (congrArg RankingExprNode.constant h)
    else .isFalse (fun hh => h (RankingExprNode.constant.inj hh))
  | .operator o1 l1, .operator o2 l2 =>
    if ho : o1 = o2 then
      match RankingExprNode.decEqList l1 l2 with
      | .isTrue h => .isTrue (by rw [ho, h])
      | .isFalse h => .isFalse (fun hh => h (RankingExprNode.operator.inj hh).2)
    else .isFalse (fun hh => ho (RankingExprNode.operator.inj hh).1)
  | .«attribute» _, .constant _ | .«attribute» _, .operator _ _ =>
    .isFalse (fun h => RankingExprNode.noConfusion h)
  | .constant _, .«attribute» _ | .constant _, .operator _ _ =>
    .isFalse (fun h => RankingExprNode.noConfusion h)
  | .operator _ _, .«attribute» _ | .operator _ _, .constant _ =>
    .isFalse (fun h => RankingExprNode.noConfusion h)

/-- Decidable equality for lists of ranking expression nodes. -/
def RankingExprNode.decEqList : (xs ys : List RankingExprNode) → Decidable (xs = ys)
  | [], [] => .isTrue rfl
  | x :: xs, y :: ys =>
    match RankingExprNode.decEq x y with
    | .isFalse h => .isFalse (fun hh => h (List.cons.inj hh).1)
    | .isTrue h1 =>
      match RankingExprNode.decEqList xs ys with
      | .isTrue h2 => .isTrue (by rw [h1, h2])
      | .isFalse h2 => .isFalse (fun hh => h2 (List.cons.inj hh).2)
  | [], _ :: _ => .isFalse (fun h => List.noConfusion h)
  | _ :: _, [] => .isFalse (fun h => List.noConfusion h)

end

instance : DecidableEq RankingExprNode := RankingExprNode.decEq

/-- One configured BM25 field with its weight
(`bm25Fields: { field: string; weight: number }[]`). -/
structure BM25Field : Type where
  field : String
  weight : Rat
deriving DecidableEq

/-- BM25 combination operator union `'sum' | 'max' | 'product'`. -/
inductive BM25Operator : Type where
  | sum | max | product
deriving DecidableEq

/-- `op.charAt(0).toUpperCase() + op.slice(1)` on the closed operator union. -/
def capitalizeOp : BM25Operator → String
  | .sum => "Sum"
  | .max => "Max"
  | .product => "Product"

/-- An aggregation configuration. The store types these as `any[]` and the
compiler reads only `.name`; `config` carries the remaining per-aggregation
fields (aggregation type, target field, ...) untouched by compilation. -/
structure Aggregation : Type where
  name : String
  config : List (String × JVal)
deriving DecidableEq

instance : Inhabited Aggregation := ⟨⟨"", []⟩⟩

/-- The compiled backend query request (the object passed to
`documentService.queryDocuments`). Absent fields are `none`. -/
structure BackendQuery : Type where
  filters : Option JVal := none
  top_k : Option Nat := none
  include_attributes : Option Bool := none
  rank_by : Option JVal := none
  aggregate_by : Option (List (String × JVal)) := none
  group_by : Option (List String) := none
deriving DecidableEq

/-- A backend query response (`{ rows, aggregations?, aggregation_groups? }`). -/
structure QueryResponse : Type where
  rows : List Document
  aggregations : Option (List (String × JVal)) := none
  aggregation_groups : Option JVal := none
deriving DecidableEq

/-- One parsed aggregation group (`{ key, count }`). -/
structure ParsedGroup : Type where
  key : JVal
  count : JVal
deriving DecidableEq

/-- One parsed aggregation result (`{ label, groups }`). -/
structure ParsedAgg : Type where
  label : String
  groups : List ParsedGroup
deriving DecidableEq

/-- The structured cache key: the source builds the string
`` `${conn}:${ns}-${searchText}-${JSON.stringify(activeFilters)}-${page}-${limit}` ``;
it is modelled by the tuple of the serialized components. -/
structure CacheKey : Type where
  conn : Option String
  ns : Option String
  search : String
  filters : List SimpleFilter
  page : Nat
  limit : Nat
deriving DecidableEq

/-- A documents-cache entry (`{ documents, totalCount, timestamp }`). -/
structure CacheEntry : Type where
  documents : List Document
  totalCount : Option Rat
  timestamp : Nat
deriving DecidableEq

/-- `CACHE_DURATION = 5 * 60 * 1000` (milliseconds). -/
def CACHE_DURATION : Nat := 5 * 60 * 1000

/-- The slice of `DocumentsState` that the query compiler, pagination
tracker, cache and load orchestrator read or write. Pure view/UI fields
(selected rows, visible columns, text-wrap options, filter history) and
the raw-query escape hatch are omitted: no modelled code path touches
them. `isClientInitialized` also stands for `documentService.getClient()`
being non-null (the two are checked together in the source). -/
structure DocState : Type where
  documents : List Document := []
  totalCount : Option Rat := none
  unfilteredTotalCount : Option Rat := none
  attributes : List DiscoveredAttribute := []
  lastQueryResult : Option QueryResponse := none
  nextCursor : Option JVal := none
  previousCursors : List JVal := []
  currentPage : Nat := 1
  pageSize : Nat := 100
  totalPages : Option Int := none
  currentConnectionId : Option String := none
  isLoading : Bool := false
  error : Option String := none
  isClientInitialized : Bool := false
  currentNamespaceId : Option String := none
  searchText : String := ""
  activeFilters : List SimpleFilter := []
  isQueryMode : Bool := false
  sortAttribute : Option String := none
  sortDirection : SortDirection := .asc
  queryMode : QueryMode := .browse
  searchField : Option String := none
  vectorQuery : Option (List Rat) := none
  vectorField : Option String := none
  bm25Fields : List BM25Field := []
  bm25Operator : BM25Operator := .sum
  rankingMode : RankingMode := .simple
  rankingExpression : Option RankingExprNode := none
  aggregations : List Aggregation := []
  aggregationResults : Option (List ParsedAgg) := none
  groupByAttributes : List String := []
  aggregationGroups : Option JVal := none
  isGroupedQuery : Bool := false
  documentsCache : List (CacheKey × CacheEntry) := []
deriving DecidableEq

/-- JS `String.prototype.trim()` (whitespace stripped from both ends),
over the character list so that proofs can evaluate it. -/
def jsTrim (x : String) : String :=
  ⟨((x.data.dropWhile Char.isWhitespace).reverse.dropWhile Char.isWhitespace).reverse⟩

/-- ASCII lowercasing of one character (every name the store lowercases is
ASCII). -/
def lowerChar (c : Char) : Char :=
  if 'A' ≤ c ∧ c ≤ 'Z' then Char.ofNat (c.toNat + 32) else c

/-- JS `String.prototype.toLowerCase()` over the character list. -/
def jsToLower (x : String) : String := ⟨x.data.map lowerChar⟩

/-- Whether `p` is a prefix of `x`, over the character lists. -/
def strHasPrefix (p x : String) : Bool := p.data.isPrefixOf x.data

/-- Drop the first two characters (used for `[]`-prefixed type names). -/
def strDropTwo (x : String) : String := ⟨x.data.drop 2⟩

/-- Splitting on `,` as JS `split(",")` does. -/
def splitCommaAux : List Char → List Char → List String
  | [], acc => [⟨acc.reverse⟩]
  | c :: rest, acc =>
    if c = ',' then ⟨acc.reverse⟩ :: splitCommaAux rest []
    else splitCommaAux rest (c :: acc)

/-- JS `x.split(",")`. -/
def splitComma (x : String) : List String := splitCommaAux x.data []

/-- One decimal digit. -/
def digitVal (c : Char) : Option Nat :=
  if '0' ≤ c ∧ c ≤ '9' then some (c.toNat - '0'.toNat) else none

/-- Decimal digit-string accumulation. -/
def parseNatAux : List Char → Nat → Option Nat
  | [], acc => some acc
  | c :: rest, acc =>
    match digitVal c with
    | some d => parseNatAux rest (acc * 10 + d)
    | none => none

/-- Integer parsing of a decimal string (optionally signed), character by
character so that proofs can evaluate it. -/
def jsParseInt (x : String) : Option Int :=
  match x.data with
  | [] => none
  | c :: rest =>
    if c = '-' then
      match rest with
      | [] => none
      | _ => (parseNatAux rest 0).map (fun n => -(n : Int))
    else (parseNatAux x.data 0).map (fun n => (n : Int))

/-- JS truthiness of an optional string: `null`/`undefined` and `""` are falsy. -/
def jsStrTruthy : Option String → Bool
  | none => false
  | some x => x ≠ ""

/-- `o || d` on an optional string default (falsy, including `""`, falls back). -/
def jsStrOr (o : Option String) (d : String) : String :=
  match o with
  | some x => if x = "" then d else x
  | none => d

/-- Modelled from the spec: `isArrayType` from `utils/filterTypeConversion`
(the module is not among the provided sources). Per the spec's data model,
attribute schema types are array types exactly when they are `[]`-prefixed
discovered types such as `[]string` (the store itself matches on
`'[]string'`, and attribute discovery produces `[]int32`, `[]float64`,
`[]string`, `[]bool` and the fallback `array`). -/
def isArrayType : Option String → Bool
  | some t => strHasPrefix "[]" t || t = "array"
  | none => false

/-- Modelled from the spec: `parseValueForFieldType` from
`utils/filterTypeConversion` (not among the provided sources) — the type
coercion layer converting free-form string input into the value type
implied by the target attribute's discovered schema type (string, number,
boolean; array element types coerce elementwise on split input). Unparsable
input stays a string. -/
def parseValueForFieldType (v : String) (fieldType : Option String) : JVal :=
  match fieldType with
  | none => .s v
  | some t =>
    let elemType := if strHasPrefix "[]" t then strDropTwo t else t
    if elemType = "int32" || elemType = "int64" || elemType = "uint" ||
       elemType = "uint32" || elemType = "uint64" || elemType = "number" ||
       elemType = "int" || elemType = "float" || elemType = "float32" ||
       elemType = "float64" then
      match jsParseInt v with
      | some i => .n i
      | none => .s v
    else if elemType = "bool" || elemType = "boolean" then
      if v = "true" then .b true else if v = "false" then .b false else .s v
    else .s v

/-- First discovered attribute with the given name
(`state.attributes.find(attr => attr.name === filter.attribute)`). -/
def lookupAttrType (attrs : List DiscoveredAttribute) (name : String) : Option String :=
  (attrs.find? (fun a => a.name = name)).map (fun a => a.type)

/-- The per-predicate translation switch of `loadDocuments`
(documentsStore.ts lines 1161-1328): one active predicate to one backend
filter value. -/
def compileSimpleFilter (attrs : List DiscoveredAttribute) (f : SimpleFilter) : JVal :=
  let fieldType := lookupAttrType attrs f.attribute
  match f.operator with
  | .equals =>
    if isArrayType fieldType then
      .arr [.s f.attribute, .s "ContainsAny", jsFirstOrSelf f.value]
    else
      .arr [.s f.attribute, .s "Eq", f.value]
  | .not_equals =>
    if isArrayType fieldType then
      .arr [.s "Not", .arr [.s f.attribute, .s "ContainsAny", jsFirstOrSelf f.value]]
    else
      .arr [.s f.attribute, .s "NotEq", f.value]
  | .contains =>
    if isArrayType fieldType then
      .arr [.s f.attribute, .s "ContainsAny", jsFirstOrSelf f.value]
    else
      .arr [.s f.attribute, .s "Glob", .s ("*" ++ jsStringOf f.value ++ "*")]
  | .greater => .arr [.s f.attribute, .s "Gt", f.value]
  | .greater_or_equal => .arr [.s f.attribute, .s "Gte", f.value]
  | .less => .arr [.s f.attribute, .s "Lt", f.value]
  | .less_or_equal => .arr [.s f.attribute, .s "Lte", f.value]
  | .in_ => .arr [.s f.attribute, .s "In", jsEnsureArr f.value]
  | .not_in => .arr [.s f.attribute, .s "NotIn", jsEnsureArr f.value]
  | .matches => .arr [.s f.attribute, .s "Glob", f.value]
  | .not_matches => .arr [.s f.attribute, .s "NotGlob", f.value]
  | .imatches => .arr [.s f.attribute, .s "IGlob", f.value]
  | .not_imatches => .arr [.s f.attribute, .s "NotIGlob", f.value]
  | .any_lt => .arr [.s f.attribute, .s "AnyLt", f.value]
  | .any_lte => .arr [.s f.attribute, .s "AnyLte", f.value]
  | .any_gt => .arr [.s f.attribute, .s "AnyGt", f.value]
  | .any_gte => .arr [.s f.attribute, .s "AnyGte", f.value]
  | .array_contains => .arr [.s f.attribute, .s "Contains", jsFirstOrSelf f.value]
  | .not_array_contains => .arr [.s f.attribute, .s "NotContains", jsFirstOrSelf f.value]
  | .contains_any => .arr [.s f.attribute, .s "ContainsAny", jsEnsureArr f.value]
  | .not_contains_any => .arr [.s f.attribute, .s "NotContainsAny", jsEnsureArr f.value]
  | .regex => .arr [.s f.attribute, .s "Regex", f.value]
  | .contains_all_tokens => .arr [.s f.attribute, .s "ContainsAllTokens", f.value]
  | .contains_token_sequence => .arr [.s f.attribute, .s "ContainsTokenSequence", f.value]

/-- Whether a load runs in query mode: any active filter or non-blank
search text (`shouldUseQueryMode`, line 1123). -/
def shouldUseQueryMode (s : DocState) : Bool :=
  !s.activeFilters.isEmpty || jsTrim s.searchText ≠ ""

/-- The filters a query-mode load assembles before adding the cursor:
the implicit browse-mode `id Glob` predicate, then one filter per active
predicate (lines 1138-1329). -/
def buildQueryFilters (s : DocState) : List JVal :=
  (if jsTrim s.searchText ≠ "" ∧ s.queryMode = .browse then
    [JVal.arr [.s "id", .s "Glob", .s ("*" ++ jsTrim s.searchText ++ "*")]]
  else []) ++ s.activeFilters.map (compileSimpleFilter s.attributes)

/-- `And`-combination of the assembled filters: zero filters yield no
filter, one passes through, several wrap in `["And", [...]]` (lines
1331-1337). -/
def combineFilters : List JVal → Option JVal
  | [] => none
  | [f] => some f
  | fs => some (.arr [.s "And", .arr fs])

/-- The pagination cursor the tracker injects for a target page, if any
(the identical decision chain of both branches, lines 1361-1387 and
1566-1588): forward motion uses the last row of the current page; backward
motion indexes the stack at `page - 2` (an `Int`, as in JS — page 1 gives
`-1`, out of range, hence no cursor); every other case injects none. -/
def cursorForPage (s : DocState) (page : Nat) : Option JVal :=
  if page > s.currentPage ∧ ¬s.documents.isEmpty then
    (s.documents.getLast?).map (fun d => d.id)
  else if page < s.currentPage ∧ ¬s.previousCursors.isEmpty then
    let cursorIndex : Int := (page : Int) - 2
    if 0 ≤ cursorIndex ∧ cursorIndex < s.previousCursors.length then
      s.previousCursors.get? cursorIndex.toNat
    else none
  else none

/-- The cursor boundary predicate `["id", "Gt", cursor]`. -/
def cursorFilter (c : JVal) : JVal := .arr [.s "id", .s "Gt", c]

/-- The final filter of a query-mode load: the combined filter `And`-ed
with the cursor predicate when a cursor applies (lines 1357-1387). -/
def finalQueryFilter (s : DocState) (page : Nat) : Option JVal :=
  let combined := combineFilters (buildQueryFilters s)
  match cursorForPage s page with
  | some c =>
    match combined with
    | some cb => some (.arr [.s "And", .arr [cb, cursorFilter c]])
    | none => some (cursorFilter c)
  | none => combined

mutual

/-- `convertRankingExprToTurbopuffer` (lines 1390-1398): attribute nodes
become their name, constant nodes their constant, operator nodes the array
`[op, ...converted operands]` — unless the operator string is falsy
(empty), in which case the conversion yields `null`. -/
def convertRankingExprToTurbopuffer : RankingExprNode → JVal
  | .«attribute» a => .s a
  | .constant c => c
  | .operator op operands =>
    if op = "" then .null
    else .arr (.s op :: convertRankingExprList operands)

/-- Operand list conversion for `convertRankingExprToTurbopuffer`. -/
def convertRankingExprList : List RankingExprNode → List JVal
  | [] => []
  | x :: rest => convertRankingExprToTurbopuffer x :: convertRankingExprList rest

end

/-- The error message set when full-text search finds no usable field
(line 1438). -/
def noSearchableFieldsMsg : String :=
  "No text fields available for full-text search. Please select fields in the BM25 configuration or check your schema has full_text_search enabled."

/-- The BM25 fallback candidates: string-typed attributes whose lowercase
name is not one of the id-like names (lines 1426-1429). -/
def potentialBM25Fields (attrs : List DiscoveredAttribute) : List String :=
  ((attrs.filter (fun a => a.type = "string" ∨ a.type = "[]string")).filter
    (fun a => ¬ (["id", "uuid", "key", "created_at", "updated_at"].contains (jsToLower a.name)))).map
    (fun a => a.name)

/-- One configured BM25 field's rank term: `[field, "BM25", text]`,
wrapped as `["Product", [weight, ...]]` when its weight is not 1
(lines 1410-1414; only reached with at least two configured fields). -/
def bm25FieldRank (text : String) (f : BM25Field) : JVal :=
  let rank : JVal := .arr [.s f.field, .s "BM25", .s text]
  if f.weight ≠ 1 then .arr [.s "Product", .arr [.n f.weight, rank]] else rank

/-- The BM25 branch of the `rank_by` selection (lines 1405-1443): two or
more configured fields combine under the capitalized operator; exactly one
compiles alone (its weight unread); none falls back to the first
potential registry field or errors with the no-searchable-fields abort. -/
def bm25RankBy (s : DocState) : Except Unit JVal :=
  match s.bm25Fields with
  | _ :: _ :: _ =>
    .ok (.arr [.s (capitalizeOp s.bm25Operator),
      .arr (s.bm25Fields.map (bm25FieldRank (jsTrim s.searchText)))])
  | [f] => .ok (.arr [.s f.field, .s "BM25", .s (jsTrim s.searchText)])
  | [] =>
    match potentialBM25Fields s.attributes with
    | p :: _ => .ok (.arr [.s p, .s "BM25", .s (jsTrim s.searchText)])
    | [] => .error ()

/-- The `rank_by` selection of a query-mode load (lines 1400-1451):
custom expression first, then BM25 (multi-field, single-field, or registry
fallback — erroring when none exists), then vector ANN, then lexical sort.
`.error ()` is the no-searchable-fields early return. -/
def computeRankBy (s : DocState) : Except Unit JVal :=
  match s.rankingMode, s.rankingExpression with
  | .expression, some e => .ok (convertRankingExprToTurbopuffer e)
  | _, _ =>
    if s.queryMode = .bm25 ∧ jsTrim s.searchText ≠ "" then
      bm25RankBy s
    else if s.queryMode = .vector ∧ (s.vectorQuery.getD []) ≠ [] then
      .ok (.arr [.s (jsStrOr s.vectorField "vector"), .s "ANN",
        .arr ((s.vectorQuery.getD []).map JVal.n)])
    else
      .ok (.arr [.s (jsStrOr s.sortAttribute "id"), .s (dirString s.sortDirection)])

/-- The count sub-query request
`{ filters, aggregate_by: { count: ["Count", "id"] } }` (lines 1342-1348
and 1541-1546). -/
def countQueryRequest (filters : Option JVal) : BackendQuery :=
  { filters := filters, aggregate_by := some [("count", .arr [.s "Count", .s "id"])] }

/-- The primary query-mode request given the selected `rank_by` (lines
1465-1489): aggregation mode carries only `filters`/`top_k`/`aggregate_by`
(and `group_by` when group-by attributes are set); normal mode carries
`filters`/`top_k`/`include_attributes`/`rank_by`. -/
def primaryRequestFor (s : DocState) (limit page : Nat) (rankBy : JVal) : BackendQuery :=
  if ¬s.aggregations.isEmpty then
    { filters := finalQueryFilter s page, top_k := some limit,
      aggregate_by := some [((s.aggregations.headD default).name, .arr [.s "Count"])],
      group_by := if ¬s.groupByAttributes.isEmpty then some s.groupByAttributes else none }
  else
    { filters := finalQueryFilter s page, top_k := some limit,
      include_attributes := some true, rank_by := some rankBy }

/-- The primary query-mode request: `primaryRequestFor` at the selected
`rank_by`; `.error ()` propagates the no-searchable-fields abort of the
`rank_by` computation. -/
def primaryQueryRequest (s : DocState) (limit page : Nat) : Except Unit BackendQuery :=
  match computeRankBy s with
  | .error _ => .error ()
  | .ok rankBy => .ok (primaryRequestFor s limit page rankBy)

/-- The browse-mode primary request (lines 1600-1608): cursor filter only,
hard-coded `rank_by: ["id", "asc"]`, all attributes included. -/
def browseQueryRequest (s : DocState) (limit page : Nat) : BackendQuery :=
  { filters := (cursorForPage s page).map cursorFilter,
    rank_by := some (.arr [.s "id", .s "asc"]),
    top_k := some limit,
    include_attributes := some true }

/-- `countResult.aggregations?.count || 0` — the count aggregate as a
number, `0` when absent or falsy. (A truthy non-numeric aggregate value
would pass through in JS; the backend's `Count` aggregate is numeric, so
that corner is modelled as `0`.) -/
def extractCount (r : QueryResponse) : Rat :=
  match r.aggregations with
  | none => 0
  | some l =>
    match (l.find? (fun p => p.1 = "count")).map (fun p => p.2) with
    | some (JVal.n q) => q
    | _ => 0

/-- `Math.ceil(totalCount / limit)`. (JS yields `Infinity` for
`limit = 0`; the modelled orchestrator is only ever called with positive
page sizes, and a zero divisor is mapped to `0`.) -/
def ceilPages (totalCount : Rat) (limit : Nat) : Int :=
  if limit = 0 then 0 else Rat.ceil (totalCount / (limit : Rat))

/-- Parsing of the primary result's aggregations into
`{ label, groups: [{key, count}] }` entries (lines 1495-1501). -/
def parseAggregations (r : QueryResponse) : List ParsedAgg :=
  match r.aggregations with
  | none => []
  | some l =>
    l.map (fun p =>
      { label := p.1,
        groups :=
          match jvalLookup "groups" p.2 with
          | some (.arr gs) =>
            gs.map (fun g =>
              { key := (jvalLookup "key" g).getD .undef,
                count := (jvalLookup "count" g).getD .undef })
          | _ => [] })

/-- JS array index assignment `arr[i] = v`: a negative index leaves the
elements untouched (it sets a non-index property); an index beyond the end
extends the array, filling holes with `undefined`. -/
def setSlot (l : List JVal) (i : Int) (v : JVal) : List JVal :=
  if i < 0 then l
  else
    let iNat := i.toNat
    if iNat < l.length then l.set iNat v
    else l ++ List.replicate (iNat - l.length) .undef ++ [v]

/-- The cursor-stack update performed on a successful load (lines
1510-1524 and 1625-1637): a forward step records the first row of the page
being left at slot `currentPage - 1`; landing on page 1 clears the stack;
anything else leaves it unchanged. -/
def updatePrevCursors (s : DocState) (page : Nat) : List JVal :=
  if page > s.currentPage then
    match s.documents with
    | d :: _ => setSlot s.previousCursors ((s.currentPage : Int) - 1) d.id
    | [] => s.previousCursors
  else if page = 1 then []
  else s.previousCursors

/-- The structured cache key of a load (line 1083). -/
def cacheKeyFor (s : DocState) (page limit : Nat) : CacheKey :=
  { conn := s.currentConnectionId, ns := s.currentNamespaceId,
    search := s.searchText, filters := s.activeFilters,
    page := page, limit := limit }

/-- Raw cache lookup (`state.documentsCache.get(cacheKey)`). -/
def cacheLookup (cache : List (CacheKey × CacheEntry)) (k : CacheKey) : Option CacheEntry :=
  (cache.find? (fun p => p.1 = k)).map (fun p => p.2)

/-- The TTL-filtered lookup: an entry counts only while
`now - timestamp < CACHE_DURATION` (line 1090). -/
def cacheFresh (cache : List (CacheKey × CacheEntry)) (k : CacheKey) (now : Nat) : Option CacheEntry :=
  match cacheLookup cache k with
  | some e => if now - e.timestamp < CACHE_DURATION then some e else none
  | none => none

/-- `Map.set`: replace an existing key in place, append a new one. -/
def cacheSet (cache : List (CacheKey × CacheEntry)) (k : CacheKey) (e : CacheEntry) :
    List (CacheKey × CacheEntry) :=
  if (cache.find? (fun p => p.1 = k)).isSome then
    cache.map (fun p => if p.1 = k then (k, e) else p)
  else cache ++ [(k, e)]

/-- How a call to `loadDocuments` ended: skipped at a guard, answered from
cache, aborted by the no-searchable-fields configuration error, failed at
a rejected backend call (the `catch` block), or succeeded. -/
inductive LoadOutcome : Type where
  | skippedGuard
  | notInitialized
  | cachedHit
  | noSearchableFields
  | failed (msg : String)
  | success
deriving DecidableEq

/-- The synchronous `discoverAttributesFromDocuments` trigger at the end of
a load: with no documents it returns without touching the state; otherwise
it replaces `attributes` with the attributes discovered from the documents.
The discovery analysis itself (type refinement, sample statistics, a
host-dependent `Date.parse` date heuristic) is abstracted as the function
argument `discover`; no claim depends on the discovered values. -/
def applyDiscovery (discover : List Document → List DiscoveredAttribute)
    (docs : List Document) (s : DocState) : DocState :=
  match docs with
  | [] => s
  | _ :: _ => { s with attributes := discover docs }

/-- The external execution capability
(`documentService.queryDocuments`): a backend request either yields a
response or rejects with an error message. -/
def Backend : Type := BackendQuery → Except String QueryResponse

/-- The cache consultation of a load: a forced load skips the lookup,
otherwise the TTL-filtered entry is used (lines 1087-1105). -/
def cachedEntryFor (force : Bool) (cache : List (CacheKey × CacheEntry))
    (k : CacheKey) (now : Nat) : Option CacheEntry :=
  if force then none else cacheFresh cache k now

/-- The browse-mode count step (lines 1539-1553): a count sub-query when
forced or either total is missing (propagating its rejection), the cached
total otherwise; returns the total and the requests issued. -/
def browseCountStep (B : Backend) (s : DocState) (force : Bool) :
    Except String (Rat × List BackendQuery) :=
  if force ∨ s.totalCount = none ∨ s.unfilteredTotalCount = none then
    match B (countQueryRequest none) with
    | .error e => .error e
    | .ok countResp => .ok (extractCount countResp, [countQueryRequest none])
  else .ok (s.totalCount.getD 0, [])

/-- The query-mode path of `loadDocuments` (count sub-query, rank-by
selection with its no-searchable-fields abort, compiled primary query,
pagination/cache bookkeeping; lines 1133-1536). `s` is the state captured
at entry; the working state already carries `isLoading`/`error`/`pageSize`
updates. -/
def loadQueryPath (B : Backend) (discover : List Document → List DiscoveredAttribute)
    (now : Nat) (s : DocState) (limit page : Nat) :
    DocState × List BackendQuery × LoadOutcome :=
  let key := cacheKeyFor s page limit
  let s1 := { s with isLoading := true, error := none, pageSize := limit }
  let combined := combineFilters (buildQueryFilters s)
  let countReq := countQueryRequest combined
  match B countReq with
  | .error e =>
    ({ s1 with error := some e, isLoading := false }, [countReq], .failed e)
  | .ok countResp =>
    let totalCount := extractCount countResp
    let totalPages := ceilPages totalCount limit
    match computeRankBy s with
    | .error _ =>
      ({ s1 with error := some noSearchableFieldsMsg, isLoading := false },
       [countReq], .noSearchableFields)
    | .ok rankBy =>
      let req := primaryRequestFor s limit page rankBy
      match B req with
      | .error e =>
        ({ s1 with error := some e, isLoading := false }, [countReq, req], .failed e)
      | .ok result =>
        let documents := result.rows
        let parsedAggs := parseAggregations result
        let newNextCursor := (documents.getLast?).map (fun d => d.id)
        let s2 := { s1 with
          previousCursors := updatePrevCursors s page,
          nextCursor := newNextCursor,
          currentPage := page,
          totalPages := some totalPages,
          aggregationResults := if ¬parsedAggs.isEmpty then some parsedAggs else none,
          aggregationGroups := result.aggregation_groups }
        let s3 := { s2 with
          documents := documents,
          totalCount := some totalCount,
          totalPages := some (ceilPages totalCount s2.pageSize),
          lastQueryResult := some result,
          currentPage := page,
          documentsCache := cacheSet s2.documentsCache key
            { documents := documents, totalCount := some totalCount, timestamp := now },
          isLoading := false }
        (applyDiscovery discover documents s3, [countReq, req], .success)

/-- The browse-mode path of `loadDocuments` (count step when needed,
cursor-paginated listing ranked `["id","asc"]`, bookkeeping; lines
1537-1643). -/
def loadBrowsePath (B : Backend) (discover : List Document → List DiscoveredAttribute)
    (now : Nat) (s : DocState) (force : Bool) (limit page : Nat) :
    DocState × List BackendQuery × LoadOutcome :=
  let key := cacheKeyFor s page limit
  let s1 := { s with isLoading := true, error := none, pageSize := limit }
  match browseCountStep B s force with
  | .error e =>
    ({ s1 with error := some e, isLoading := false },
     [countQueryRequest none], .failed e)
  | .ok (totalCount, countLog) =>
    let totalPages := ceilPages totalCount limit
    let req := browseQueryRequest s limit page
    match B req with
    | .error e =>
      ({ s1 with error := some e, isLoading := false },
       countLog ++ [req], .failed e)
    | .ok result =>
      let documents := result.rows
      let newNextCursor := (documents.getLast?).map (fun d => d.id)
      let s2 := { s1 with
        previousCursors := updatePrevCursors s page,
        nextCursor := newNextCursor,
        currentPage := page,
        totalPages := some totalPages }
      let s3 := { s2 with
        documents := documents,
        totalCount := some totalCount,
        totalPages := some (ceilPages totalCount s2.pageSize),
        lastQueryResult := some result,
        currentPage := page,
        unfilteredTotalCount := some totalCount,
        documentsCache := cacheSet s2.documentsCache key
          { documents := documents, totalCount := some totalCount, timestamp := now },
        isLoading := false }
      (applyDiscovery discover documents s3, countLog ++ [req], .success)

/-- The `loadDocuments` orchestrator (documentsStore.ts lines 1047-1700),
as a function of the backend capability `B`, the attribute-discovery
analysis `discover`, the clock reading `now` (`Date.now()`, one load is
modelled at a single instant), the pre-call state and the call arguments.
Returns the post-call state, the backend requests issued in order, and the
outcome. `loadMore` is accepted and ignored exactly as in the source. -/
def loadDocuments (B : Backend) (discover : List Document → List DiscoveredAttribute)
    (now : Nat) (s : DocState) (force loadMore : Bool) (limit page : Nat) :
    DocState × List BackendQuery × LoadOutcome :=
  let _ := loadMore
  if ¬jsStrTruthy s.currentNamespaceId ∨ s.isLoading then (s, [], .skippedGuard)
  else if ¬s.isClientInitialized then
    ({ s with error := match s.error with
        | none => some "Client not initialized. Please wait..."
        | some e => some e }, [], .notInitialized)
  else
    let key := cacheKeyFor s page limit
    match cachedEntryFor force s.documentsCache key now with
    | some cached =>
      let s1 := { s with
        documents := cached.documents, totalCount := cached.totalCount,
        lastQueryResult := none, currentPage := page }
      (applyDiscovery discover cached.documents s1, [], .cachedHit)
    | none =>
      -- `if (limit !== state.pageSize) { state.pageSize = limit }` nets to `limit`
      if shouldUseQueryMode s then loadQueryPath B discover now s limit page
      else loadBrowsePath B discover now s force limit page

/-- The human-readable display value built by `addFilter`/`updateFilter`
(lines 427-440): `null` renders as `"null"`, long arrays are truncated
after three elements, objects go through `JSON.stringify` (approximated
here by a constant — no modelled code reads the rendering back), scalars
render via `String(v)`. -/
def displayValueFor : JVal → String
  | .null => "null"
  | .arr xs =>
    if xs.length > 3 then
      "[" ++ String.intercalate ", " (jsElemStrings (xs.take 3)) ++ ", ...]"
    else
      "[" ++ String.intercalate ", " (jsElemStrings xs) ++ "]"
  | .obj fs => "JSON:" ++ String.intercalate "," (fs.map (fun p => p.1))
  | v => jsStringOf v

/-- The input-to-typed-value step shared by `addFilter` and `updateFilter`
(lines 393-416): `in`/`not_in` force an array (splitting a comma list),
the literal string `"null"` (case-insensitive) becomes `null`, any other
string goes through the type-coercion layer, non-strings pass unchanged. -/
def typedValueFor (operator : FilterOperator) (rawValue : JVal)
    (fieldType : Option String) : JVal :=
  if operator = .in_ ∨ operator = .not_in then
    match rawValue with
    | .arr xs =>
      .arr (xs.map (fun v =>
        match v with
        | .s str => parseValueForFieldType str fieldType
        | other => other))
    | other =>
      .arr ((((splitComma (jsStringOf other)).map jsTrim).filter (fun v => v ≠ ""))
        |>.map (fun v => parseValueForFieldType v fieldType))
  else
    match rawValue with
    | .s str =>
      if jsToLower str = "null" then .null else parseValueForFieldType str fieldType
    | other => other

/-- `setSearchText` (lines 350-370); the debounced reload it schedules is a
side effect, not a state change. -/
def setSearchText (s : DocState) (text : String) : DocState :=
  { s with searchText := text,
           isQueryMode := text.length > 0 ∨ ¬s.activeFilters.isEmpty,
           currentPage := 1, previousCursors := [], nextCursor := none }

/-- `addFilter` (lines 372-476). The generated filter id
(`Date.now()`-`Math.random()`) is nondeterministic and passed in as
`newId`. -/
def addFilter (s : DocState) (attr : String) (operator : FilterOperator)
    (rawValue : JVal) (newId : String) : DocState :=
  let fieldType := lookupAttrType s.attributes attr
  let typedValue := typedValueFor operator rawValue fieldType
  let newFilter : SimpleFilter :=
    { id := newId, «attribute» := attr, operator := operator,
      value := typedValue, displayValue := displayValueFor typedValue }
  { s with activeFilters := s.activeFilters ++ [newFilter],
           isQueryMode := true,
           currentPage := 1, previousCursors := [], nextCursor := none }

/-- `updateFilter` (lines 478-550): the first filter with the given id is
rewritten in place (keeping its id); pagination resets either way. -/
def updateFilter (s : DocState) (filterId attr : String)
    (operator : FilterOperator) (rawValue : JVal) : DocState :=
  let fieldType := lookupAttrType s.attributes attr
  let typedValue := typedValueFor operator rawValue fieldType
  let dv := displayValueFor typedValue
  let newFilters :=
    match s.activeFilters.findIdx? (fun f => f.id = filterId) with
    | some i =>
      match s.activeFilters.get? i with
      | some old =>
        s.activeFilters.set i
          { old with «attribute» := attr, operator := operator,
                     value := typedValue, displayValue := dv }
      | none => s.activeFilters
    | none => s.activeFilters
  { s with activeFilters := newFilters,
           currentPage := 1, previousCursors := [], nextCursor := none }

/-- `removeFilter` (lines 552-569). -/
def removeFilter (s : DocState) (filterId : String) : DocState :=
  let newFilters := s.activeFilters.filter (fun f => f.id ≠ filterId)
  { s with activeFilters := newFilters,
           isQueryMode := s.searchText.length > 0 ∨ ¬newFilters.isEmpty,
           currentPage := 1, previousCursors := [], nextCursor := none }

/-- `setSortAttribute` (lines 652-660). -/
def setSortAttribute (s : DocState) (attr : Option String)
    (direction : SortDirection) : DocState :=
  { s with sortAttribute := attr, sortDirection := direction,
           currentPage := 1, previousCursors := [], nextCursor := none }

/-- `setQueryMode` (lines 662-669). -/
def setQueryMode (s : DocState) (mode : QueryMode) : DocState :=
  { s with queryMode := mode,
           currentPage := 1, previousCursors := [], nextCursor := none }

/-- `setSearchField` (lines 671-678). -/
def setSearchField (s : DocState) (field : Option String) : DocState :=
  { s with searchField := field,
           currentPage := 1, previousCursors := [], nextCursor := none }

/-- `setVectorQuery` (lines 680-688). -/
def setVectorQuery (s : DocState) (vector : Option (List Rat))
    (field : String) : DocState :=
  { s with vectorQuery := vector, vectorField := some field,
           currentPage := 1, previousCursors := [], nextCursor := none }

/-- `setBM25Config` (lines 690-698). -/
def setBM25Config (s : DocState) (fields : List BM25Field)
    (operator : BM25Operator) : DocState :=
  { s with bm25Fields := fields, bm25Operator := operator,
           currentPage := 1, previousCursors := [], nextCursor := none }

/-- `setRankingMode` (lines 700-707). -/
def setRankingMode (s : DocState) (mode : RankingMode) : DocState :=
  { s with rankingMode := mode,
           currentPage := 1, previousCursors := [], nextCursor := none }

/-- `setRankingExpression` (lines 709-716). -/
def setRankingExpression (s : DocState) (expression : Option RankingExprNode) : DocState :=
  { s with rankingExpression := expression,
           currentPage := 1, previousCursors := [], nextCursor := none }

/-- `setAggregations` (lines 718-725). -/
def setAggregations (s : DocState) (aggregations : List Aggregation) : DocState :=
  { s with aggregations := aggregations,
           currentPage := 1, previousCursors := [], nextCursor := none }

/-- `setGroupByAttributes` (lines 728-740). -/
def setGroupByAttributes (s : DocState) (attrs : List String) : DocState :=
  { s with groupByAttributes := attrs,
           isGroupedQuery := ¬attrs.isEmpty,
           currentPage := 1, previousCursors := [], nextCursor := none,
           aggregationGroups := if attrs.isEmpty then none else s.aggregationGroups }

/-! ## Theorems -/

/-- Pagination is reset: page 1, empty cursor stack, no forward cursor. -/
def paginationReset (s : DocState) : Prop :=
  s.currentPage = 1 ∧ s.previousCursors = [] ∧ s.nextCursor = none

/-- C4: every mutator of the query configuration — set search text,
add/update/remove filter, set sort attribute, set query mode, set search
field, set vector query, set BM25 config, set ranking mode, set ranking
expression, set aggregations, set group-by attributes — leaves the state
with `currentPage = 1`, `previousCursors = []` and `nextCursor = null`. -/
theorem mutators_reset_pagination
    (s : DocState) (text attr fid newId : String) (op : FilterOperator)
    (raw : JVal) (sortAttr : Option String) (dir : SortDirection)
    (qm : QueryMode) (sf : Option String) (vec : Option (List Rat))
    (vf : String) (fields : List BM25Field) (bop : BM25Operator)
    (rm : RankingMode) (re : Option RankingExprNode)
    (aggs : List Aggregation) (gattrs : List String) :
    paginationReset (setSearchText s text) ∧
    paginationReset (addFilter s attr op raw newId) ∧
    paginationReset (updateFilter s fid attr op raw) ∧
    paginationReset (removeFilter s fid) ∧
    paginationReset (setSortAttribute s sortAttr dir) ∧
    paginationReset (setQueryMode s qm) ∧
    paginationReset (setSearchField s sf) ∧
    paginationReset (setVectorQuery s vec vf) ∧
    paginationReset (setBM25Config s fields bop) ∧
    paginationReset (setRankingMode s rm) ∧
    paginationReset (setRankingExpression s re) ∧
    paginationReset (setAggregations s aggs) ∧
    paginationReset (setGroupByAttributes s gattrs) := by
  simp [paginationReset, setSearchText, addFilter, updateFilter, removeFilter,
    setSortAttribute, setQueryMode, setSearchField, setVectorQuery,
    setBM25Config, setRankingMode, setRankingExpression, setAggregations,
    setGroupByAttributes]

/-- C2: an active `equals` predicate compiles to
`[attribute, "ContainsAny", v]` when the attribute's discovered type is an
array type (`v` being the first element when the stored value is an array,
and the value itself otherwise) and to `[attribute, "Eq", value]` when it
is scalar; `not_equals` compiles to the `["Not", ...]`-wrapped
`ContainsAny` in the array case and to `[attribute, "NotEq", value]` in
the scalar case. -/
theorem equals_filter_compilation (attrs : List DiscoveredAttribute) (f : SimpleFilter) :
    (f.operator = .equals →
      (isArrayType (lookupAttrType attrs f.attribute) = true →
        compileSimpleFilter attrs f =
          .arr [.s f.attribute, .s "ContainsAny", jsFirstOrSelf f.value]) ∧
      (isArrayType (lookupAttrType attrs f.attribute) = false →
        compileSimpleFilter attrs f = .arr [.s f.attribute, .s "Eq", f.value])) ∧
    (f.operator = .not_equals →
      (isArrayType (lookupAttrType attrs f.attribute) = true →
        compileSimpleFilter attrs f =
          .arr [.s "Not", .arr [.s f.attribute, .s "ContainsAny", jsFirstOrSelf f.value]]) ∧
      (isArrayType (lookupAttrType attrs f.attribute) = false →
        compileSimpleFilter attrs f = .arr [.s f.attribute, .s "NotEq", f.value])) := by
  constructor <;> intro hop <;> constructor <;> intro hty <;>
    simp [compileSimpleFilter, hop, hty]

/-- Witness for C2 at concrete inputs: `tags : []string` with `equals`
compiles to `ContainsAny`, `status : string` to `Eq`. -/
theorem equals_filter_compilation_witness :
    ((⟨"i1", "tags", .equals, .s "x", "x"⟩ : SimpleFilter).operator = .equals ∧
      isArrayType (lookupAttrType [⟨"tags", "[]string"⟩] "tags") = true ∧
      compileSimpleFilter [⟨"tags", "[]string"⟩] ⟨"i1", "tags", .equals, .s "x", "x"⟩ =
        .arr [.s "tags", .s "ContainsAny", .s "x"]) ∧
    ((⟨"i2", "status", .equals, .s "published", "published"⟩ : SimpleFilter).operator = .equals ∧
      isArrayType (lookupAttrType [⟨"status", "string"⟩] "status") = false ∧
      compileSimpleFilter [⟨"status", "string"⟩] ⟨"i2", "status", .equals, .s "published", "published"⟩ =
        .arr [.s "status", .s "Eq", .s "published"]) :=
  ⟨⟨rfl, by decide,
    ((equals_filter_compilation [⟨"tags", "[]string"⟩] ⟨"i1", "tags", .equals, .s "x", "x"⟩).1
      rfl).1 (by decide)⟩,
   ⟨rfl, by decide,
    ((equals_filter_compilation [⟨"status", "string"⟩]
        ⟨"i2", "status", .equals, .s "published", "published"⟩).1 rfl).2 (by decide)⟩⟩

/-- A concrete query-mode state with two configured aggregations. -/
def witnessC10state : DocState :=
  { currentNamespaceId := some "ns", currentConnectionId := some "c",
    isClientInitialized := true,
    activeFilters := [⟨"f1", "status", .equals, .s "published", "published"⟩],
    attributes := [⟨"status", "string"⟩],
    aggregations := [⟨"total", [("type", .s "count")]⟩, ⟨"other", [("field", .s "x")]⟩] }

/-- C10: in a query-mode compilation with a non-empty aggregation list,
the emitted `aggregate_by` object has exactly one entry — the first
aggregation's name mapped to `["Count"]` — and neither the aggregations
after the first nor any per-aggregation configuration fields affect the
compiled request. -/
theorem aggregate_by_first_only (s : DocState) (limit page : Nat)
    (a : Aggregation) (rest : List Aggregation)
    (hq : shouldUseQueryMode s = true) (ha : s.aggregations = a :: rest) :
    (∀ q, primaryQueryRequest s limit page = .ok q →
      q.aggregate_by = some [(a.name, .arr [.s "Count"])]) ∧
    (∀ (c2 : List (String × JVal)) (rest2 : List Aggregation),
      primaryQueryRequest { s with aggregations := ⟨a.name, c2⟩ :: rest2 } limit page =
        primaryQueryRequest s limit page) := by
  constructor
  · intro q hcomp
    unfold primaryQueryRequest at hcomp
    cases hrk : computeRankBy s with
    | error e => rw [hrk] at hcomp; exact absurd hcomp (by simp)
    | ok rb =>
      rw [hrk] at hcomp
      cases hcomp
      unfold primaryRequestFor
      rw [ha]
      simp
  · intro c2 rest2
    unfold primaryQueryRequest
    have hrk : computeRankBy { s with aggregations := Aggregation.mk a.name c2 :: rest2 } =
        computeRankBy s := rfl
    rw [hrk]
    have hpr : ∀ rb, primaryRequestFor { s with aggregations := Aggregation.mk a.name c2 :: rest2 }
        limit page rb = primaryRequestFor s limit page rb := by
      intro rb
      unfold primaryRequestFor
      rw [ha]
      rfl
    cases hc : computeRankBy s with
    | error e => simp only [hc]
    | ok rb =>
      simp only [hc]
      exact congrArg Except.ok (hpr rb)

/-- Witness for C10 at a concrete input: query mode via one filter, two
aggregations with extra configuration; the request carries only the first
aggregation's name. -/
theorem aggregate_by_first_only_witness :
    shouldUseQueryMode witnessC10state = true ∧
    witnessC10state.aggregations = Aggregation.mk "total" [("type", .s "count")] ::
      [Aggregation.mk "other" [("field", .s "x")]] ∧
    (∀ q, primaryQueryRequest witnessC10state 100 1 = .ok q →
      q.aggregate_by = some [("total", .arr [.s "Count"])]) :=
  ⟨by decide, rfl,
    (aggregate_by_first_only witnessC10state 100 1
      (Aggregation.mk "total" [("type", .s "count")])
      [Aggregation.mk "other" [("field", .s "x")]] (by decide) rfl).1⟩

/-- A concrete query-mode state with one aggregation and one filter. -/
def witnessC1state : DocState :=
  { currentNamespaceId := some "ns", currentConnectionId := some "c",
    isClientInitialized := true,
    activeFilters := [⟨"f1", "status", .equals, .s "published", "published"⟩],
    attributes := [⟨"status", "string"⟩],
    aggregations := [⟨"total", []⟩] }

/-- A concrete browse-mode state (no filters, empty search text) with an
aggregation configured. -/
def counterC1state : DocState :=
  { currentNamespaceId := some "ns", currentConnectionId := some "c",
    isClientInitialized := true,
    aggregations := [⟨"total", []⟩] }

/-- A stable backend used by the C1 counterexample. -/
def counterC1backend : Backend :=
  fun _ => .ok { rows := [], aggregations := some [("count", .n 0)] }

/-- C1 (amended): in a query-mode compilation (a filter or search text
present), with at least one aggregation configured the compiled request
carries `aggregate_by` (and `group_by` exactly when group-by attributes
are set) and neither `rank_by` nor `include_attributes`; with no
aggregation it carries `rank_by` and `include_attributes` and no
`aggregate_by`. A browse-mode compilation, however, always carries
`rank_by` and `include_attributes` and never `aggregate_by`, regardless
of configured aggregations. -/
theorem aggregation_exclusivity (s : DocState) (limit page : Nat) :
    (s.aggregations ≠ [] → ∀ q, primaryQueryRequest s limit page = .ok q →
      q.aggregate_by = some [((s.aggregations.headD default).name, .arr [.s "Count"])] ∧
      (q.group_by ≠ none ↔ s.groupByAttributes ≠ []) ∧
      q.rank_by = none ∧ q.include_attributes = none) ∧
    (s.aggregations = [] → ∀ q, primaryQueryRequest s limit page = .ok q →
      q.rank_by ≠ none ∧ q.include_attributes = some true ∧ q.aggregate_by = none) ∧
    ((browseQueryRequest s limit page).rank_by ≠ none ∧
     (browseQueryRequest s limit page).include_attributes = some true ∧
     (browseQueryRequest s limit page).aggregate_by = none) := by
  refine ⟨?_, ?_, ?_⟩
  · intro ha q hcomp
    unfold primaryQueryRequest at hcomp
    cases hrk : computeRankBy s with
    | error e => rw [hrk] at hcomp; exact absurd hcomp (by simp)
    | ok rb =>
      rw [hrk] at hcomp
      cases hcomp
      unfold primaryRequestFor
      have hne : s.aggregations.isEmpty = false := by
        cases hl : s.aggregations with
        | nil => exact absurd hl ha
        | cons x xs => simp [hl]
      by_cases hg : s.groupByAttributes.isEmpty
      · have hgl : s.groupByAttributes = [] := List.isEmpty_iff.mp hg
        simp [hne, hgl]
      · have hgl : s.groupByAttributes ≠ [] := fun hl => hg (by simp [hl])
        simp [hne, hg, hgl]
  · intro ha q hcomp
    unfold primaryQueryRequest at hcomp
    cases hrk : computeRankBy s with
    | error e => rw [hrk] at hcomp; exact absurd hcomp (by simp)
    | ok rb =>
      rw [hrk] at hcomp
      cases hcomp
      unfold primaryRequestFor
      rw [ha]
      simp
  · exact ⟨by simp [browseQueryRequest], rfl, rfl⟩

/-- Witness for C1 at concrete inputs: the query-mode request of
`witnessC1state` (one aggregation, one filter). -/
theorem aggregation_exclusivity_witness :
    witnessC1state.aggregations ≠ [] ∧
    (∀ q, primaryQueryRequest witnessC1state 100 1 = .ok q →
      q.aggregate_by = some [("total", .arr [.s "Count"])] ∧
      (q.group_by ≠ none ↔ witnessC1state.groupByAttributes ≠ []) ∧
      q.rank_by = none ∧ q.include_attributes = none) :=
  ⟨by decide, (aggregation_exclusivity witnessC1state 100 1).1 (by decide)⟩

/-- C1 counterexample: with an aggregation configured but no filter and no
search text, the load compiles the browse request, which carries `rank_by`
and `include_attributes` and no `aggregate_by` — contradicting the claim
that any compilation with an aggregation configured emits `aggregate_by`
and suppresses both fields. -/
theorem aggregation_exclusivity_counterexample :
    counterC1state.aggregations = [⟨"total", []⟩] ∧
    (loadDocuments counterC1backend (fun _ => []) 0 counterC1state true false 100 1).2.1 =
      [countQueryRequest none, browseQueryRequest counterC1state 100 1] ∧
    (browseQueryRequest counterC1state 100 1).rank_by = some (.arr [.s "id", .s "asc"]) ∧
    (browseQueryRequest counterC1state 100 1).include_attributes = some true ∧
    (browseQueryRequest counterC1state 100 1).aggregate_by = none := by
  refine ⟨rfl, ?_, rfl, rfl, rfl⟩
  decide

/-- When the custom-expression case does not apply, the `rank_by`
selection reduces to the BM25/vector/sort conditional chain. -/
theorem computeRankBy_not_expression (s : DocState)
    (hnotExpr : s.rankingMode ≠ .expression ∨ s.rankingExpression = none) :
    computeRankBy s =
      (if s.queryMode = .bm25 ∧ jsTrim s.searchText ≠ "" then bm25RankBy s
       else if s.queryMode = .vector ∧ (s.vectorQuery.getD []) ≠ [] then
         .ok (.arr [.s (jsStrOr s.vectorField "vector"), .s "ANN",
           .arr ((s.vectorQuery.getD []).map JVal.n)])
       else .ok (.arr [.s (jsStrOr s.sortAttribute "id"),
         .s (dirString s.sortDirection)])) := by
  unfold computeRankBy
  rcases hnotExpr with hm | he
  · cases hmm : s.rankingMode with
    | expression => exact absurd hmm hm
    | simple => cases s.rankingExpression <;> rfl
  · rw [he]; cases s.rankingMode <;> rfl

/-- A concrete browse-mode state with a configured sort of `name`
descending. -/
def counterC3state : DocState :=
  { currentNamespaceId := some "ns", currentConnectionId := some "c",
    isClientInitialized := true,
    sortAttribute := some "name", sortDirection := .desc }

/-- A stable backend used by the C3 counterexample. -/
def counterC3backend : Backend :=
  fun _ => .ok { rows := [], aggregations := some [("count", .n 0)] }

/-- C3 (amended): in a query-mode compilation the `rank_by` argument is
selected by the priority order — (1) the converted custom ranking
expression when ranking mode is `expression` and an expression tree is
present; otherwise (2) the BM25 ranking when query mode is full-text and
the trimmed search text is non-empty; otherwise (3)
`[vectorField || "vector", "ANN", vector]` when query mode is vector and a
non-empty query vector is present; otherwise (4)
`[sortAttribute || "id", direction]` — and when no aggregation is
configured the compiled request's `rank_by` is exactly the selected value.
In browse mode with no filters and no search text, however, the compiled
request always uses `["id", "asc"]`, ignoring the configured sort. -/
theorem rank_by_priority (s : DocState) (limit page : Nat) :
    (∀ e, s.rankingMode = .expression → s.rankingExpression = some e →
      computeRankBy s = .ok (convertRankingExprToTurbopuffer e)) ∧
    ((s.rankingMode ≠ .expression ∨ s.rankingExpression = none) →
      s.queryMode = .bm25 → jsTrim s.searchText ≠ "" →
      computeRankBy s = bm25RankBy s) ∧
    ((s.rankingMode ≠ .expression ∨ s.rankingExpression = none) →
      ¬(s.queryMode = .bm25 ∧ jsTrim s.searchText ≠ "") →
      s.queryMode = .vector → ∀ v, s.vectorQuery = some v → v ≠ [] →
      computeRankBy s = .ok (.arr [.s (jsStrOr s.vectorField "vector"), .s "ANN",
        .arr (v.map JVal.n)])) ∧
    ((s.rankingMode ≠ .expression ∨ s.rankingExpression = none) →
      ¬(s.queryMode = .bm25 ∧ jsTrim s.searchText ≠ "") →
      ¬(s.queryMode = .vector ∧ (s.vectorQuery.getD []) ≠ []) →
      computeRankBy s = .ok (.arr [.s (jsStrOr s.sortAttribute "id"),
        .s (dirString s.sortDirection)])) ∧
    (s.aggregations = [] → ∀ r q, computeRankBy s = .ok r →
      primaryQueryRequest s limit page = .ok q → q.rank_by = some r) ∧
    ((browseQueryRequest s limit page).rank_by = some (.arr [.s "id", .s "asc"])) := by
  refine ⟨?_, ?_, ?_, ?_, ?_, rfl⟩
  · intro e hm he
    unfold computeRankBy
    rw [hm, he]
  · intro hnotExpr hbm htrim
    rw [computeRankBy_not_expression s hnotExpr]
    simp [hbm, htrim]
  · intro hnotExpr hnotBm hv v hvq hvne
    rw [computeRankBy_not_expression s hnotExpr]
    rw [if_neg hnotBm, if_pos ⟨hv, by rw [hvq]; simpa using hvne⟩]
    rw [hvq]
    rfl
  · intro hnotExpr hnotBm hnotVec
    rw [computeRankBy_not_expression s hnotExpr]
    rw [if_neg hnotBm, if_neg hnotVec]
  · intro ha r q hr hcomp
    unfold primaryQueryRequest at hcomp
    rw [hr] at hcomp
    cases hcomp
    unfold primaryRequestFor
    rw [ha]
    simp

/-- Witness for C3 at concrete inputs: with simple ranking, browse query
mode and an empty vector config, the selected `rank_by` is the configured
sort `["name", "desc"]`. -/
theorem rank_by_priority_witness :
    (counterC3state.rankingMode ≠ .expression ∨ counterC3state.rankingExpression = none) ∧
    ¬(counterC3state.queryMode = .bm25 ∧ jsTrim counterC3state.searchText ≠ "") ∧
    ¬(counterC3state.queryMode = .vector ∧ (counterC3state.vectorQuery.getD []) ≠ []) ∧
    computeRankBy counterC3state = .ok (.arr [.s (jsStrOr counterC3state.sortAttribute "id"),
      .s (dirString counterC3state.sortDirection)]) :=
  ⟨Or.inl (by decide), by decide, by decide,
    (rank_by_priority counterC3state 100 1).2.2.2.1 (Or.inl (by decide))
      (by decide) (by decide)⟩

/-- C3 counterexample: in browse mode with no filters and no search text,
the issued primary request ranks by `["id", "asc"]` even though the
configured sort is `name` descending — the claim's case (4) value
`["name", "desc"]` is not used. -/
theorem rank_by_priority_counterexample :
    counterC3state.sortAttribute = some "name" ∧
    counterC3state.sortDirection = .desc ∧
    counterC3state.activeFilters = [] ∧ counterC3state.searchText = "" ∧
    (loadDocuments counterC3backend (fun _ => []) 0 counterC3state true false 100 1).2.1 =
      [countQueryRequest none, browseQueryRequest counterC3state 100 1] ∧
    (browseQueryRequest counterC3state 100 1).rank_by = some (.arr [.s "id", .s "asc"]) ∧
    (browseQueryRequest counterC3state 100 1).rank_by ≠ some (.arr [.s "name", .s "desc"]) := by
  refine ⟨rfl, rfl, rfl, rfl, by decide, rfl, by decide⟩

/-- The C9 scenario state: full-text mode, search text `"hello"`, fields
`a` and `b` at weight 1, `sum` operator. -/
def witnessC9state : DocState :=
  { currentNamespaceId := some "ns", currentConnectionId := some "c",
    isClientInitialized := true,
    queryMode := .bm25, searchText := "hello",
    bm25Fields := [⟨"a", 1⟩, ⟨"b", 1⟩], bm25Operator := .sum }

/-- A concrete full-text state with a single configured field of weight 2. -/
def counterC9state : DocState :=
  { currentNamespaceId := some "ns", currentConnectionId := some "c",
    isClientInitialized := true,
    queryMode := .bm25, searchText := "hello",
    bm25Fields := [⟨"a", 2⟩] }

/-- C9 (amended): the scenario — full-text mode, text `"hello"`, fields
`a`,`b` of weight 1 under `sum` — compiles `rank_by` to
`["Sum",[["a","BM25","hello"],["b","BM25","hello"]]]`; with at least two
configured fields every field's rank term is `[field,"BM25",text]`,
wrapped as `["Product",[weight, ...]]` exactly when its weight differs
from 1; a single configured field, however, compiles to
`[field,"BM25",text]` with its weight ignored. -/
theorem bm25_rank_compilation :
    computeRankBy witnessC9state = .ok (.arr [.s "Sum", .arr
      [.arr [.s "a", .s "BM25", .s "hello"], .arr [.s "b", .s "BM25", .s "hello"]]]) ∧
    (∀ (s : DocState) (f1 f2 : BM25Field) (rest : List BM25Field),
      (s.rankingMode ≠ .expression ∨ s.rankingExpression = none) →
      s.queryMode = .bm25 → jsTrim s.searchText ≠ "" →
      s.bm25Fields = f1 :: f2 :: rest →
      computeRankBy s = .ok (.arr [.s (capitalizeOp s.bm25Operator),
        .arr (s.bm25Fields.map (bm25FieldRank (jsTrim s.searchText)))])) ∧
    (∀ (text : String) (f : BM25Field), f.weight ≠ 1 →
      bm25FieldRank text f =
        .arr [.s "Product", .arr [.n f.weight, .arr [.s f.field, .s "BM25", .s text]]]) ∧
    (∀ (text : String) (f : BM25Field), f.weight = 1 →
      bm25FieldRank text f = .arr [.s f.field, .s "BM25", .s text]) ∧
    (∀ (s : DocState) (f1 : BM25Field),
      (s.rankingMode ≠ .expression ∨ s.rankingExpression = none) →
      s.queryMode = .bm25 → jsTrim s.searchText ≠ "" →
      s.bm25Fields = [f1] →
      computeRankBy s = .ok (.arr [.s f1.field, .s "BM25", .s (jsTrim s.searchText)])) := by
  refine ⟨by decide, ?_, ?_, ?_, ?_⟩
  · intro s f1 f2 rest hnotExpr hbm htrim hfields
    rw [computeRankBy_not_expression s hnotExpr, if_pos ⟨hbm, htrim⟩]
    unfold bm25RankBy
    rw [hfields]
  · intro text f hw
    unfold bm25FieldRank
    simp [hw]
  · intro text f hw
    unfold bm25FieldRank
    simp [hw]
  · intro s f1 hnotExpr hbm htrim hfields
    rw [computeRankBy_not_expression s hnotExpr, if_pos ⟨hbm, htrim⟩]
    unfold bm25RankBy
    rw [hfields]

/-- Witness for C9 at concrete inputs: two fields where `b` has weight 2,
and the per-field wrapping facts at weight 2 and weight 1. -/
theorem bm25_rank_compilation_witness :
    ((2 : Rat) ≠ 1 ∧
      bm25FieldRank "hello" ⟨"b", 2⟩ =
        .arr [.s "Product", .arr [.n 2, .arr [.s "b", .s "BM25", .s "hello"]]]) ∧
    (witnessC9state.bm25Fields = ⟨"a", 1⟩ :: ⟨"b", 1⟩ :: [] ∧
      computeRankBy witnessC9state = .ok (.arr [.s (capitalizeOp witnessC9state.bm25Operator),
        .arr (witnessC9state.bm25Fields.map (bm25FieldRank (jsTrim witnessC9state.searchText)))])) :=
  ⟨⟨by decide, bm25_rank_compilation.2.2.1 "hello" ⟨"b", 2⟩ (by decide)⟩,
   ⟨rfl, bm25_rank_compilation.2.1 witnessC9state ⟨"a", 1⟩ ⟨"b", 1⟩ []
      (Or.inl (by decide)) (by decide) (by decide) rfl⟩⟩

/-- C9 counterexample: one configured field `a` of weight 2 compiles to
the bare `["a","BM25","hello"]` — the `Product` wrapping the claim
requires for every field of weight ≠ 1 does not happen. -/
theorem bm25_rank_compilation_counterexample :
    counterC9state.bm25Fields = [⟨"a", 2⟩] ∧ (2 : Rat) ≠ 1 ∧
    computeRankBy counterC9state = .ok (.arr [.s "a", .s "BM25", .s "hello"]) ∧
    computeRankBy counterC9state ≠
      .ok (.arr [.s "Product", .arr [.n 2, .arr [.s "a", .s "BM25", .s "hello"]]]) := by
  exact ⟨rfl, by decide, by decide, by decide⟩

/-- A concrete full-text state with no configured BM25 fields and no
eligible text attribute in the registry. -/
def counterC6state : DocState :=
  { currentNamespaceId := some "ns", currentConnectionId := some "c",
    isClientInitialized := true,
    queryMode := .bm25, searchText := "hello",
    attributes := [⟨"score", "int32"⟩] }

/-- A stable backend used by the C6 counterexample. -/
def counterC6backend : Backend :=
  fun _ => .ok { rows := [], aggregations := some [("count", .n 0)] }

/-- C6 (amended): a forced load in full-text mode with non-blank search
text, no configured BM25 fields, no eligible text attribute and no active
custom ranking expression fails with the no-searchable-fields
configuration error and aborts before the primary paginated query — but
only after exactly one network call, the count sub-query (not zero calls:
the count query precedes the rank-by computation in the source). -/
theorem no_searchable_fields_abort (B : Backend)
    (discover : List Document → List DiscoveredAttribute) (now : Nat)
    (s : DocState) (loadMore : Bool) (limit page : Nat) (resp : QueryResponse)
    (hns : jsStrTruthy s.currentNamespaceId = true) (hload : s.isLoading = false)
    (hinit : s.isClientInitialized = true)
    (hbm : s.queryMode = .bm25) (htrim : jsTrim s.searchText ≠ "")
    (hfields : s.bm25Fields = []) (hpot : potentialBM25Fields s.attributes = [])
    (hnotExpr : s.rankingMode ≠ .expression ∨ s.rankingExpression = none)
    (hcount : B (countQueryRequest (combineFilters (buildQueryFilters s))) = .ok resp) :
    (loadDocuments B discover now s true loadMore limit page).2.2 = .noSearchableFields ∧
    (loadDocuments B discover now s true loadMore limit page).1.error =
      some noSearchableFieldsMsg ∧
    (loadDocuments B discover now s true loadMore limit page).1.isLoading = false ∧
    (loadDocuments B discover now s true loadMore limit page).2.1 =
      [countQueryRequest (combineFilters (buildQueryFilters s))] ∧
    (loadDocuments B discover now s true loadMore limit page).2.1.length = 1 := by
  have hrk : computeRankBy s = .error () := by
    rw [computeRankBy_not_expression s hnotExpr, if_pos ⟨hbm, htrim⟩]
    unfold bm25RankBy
    rw [hfields, hpot]
  have hq : shouldUseQueryMode s = true := by
    unfold shouldUseQueryMode
    simp [htrim]
  unfold loadDocuments loadQueryPath
  rw [hns, hload, hinit]
  simp only [Bool.true_eq_false, Bool.not_true, false_or, if_neg, reduceIte,
    Bool.false_eq_true, not_false_iff]
  rw [hq]
  simp only [reduceIte, hcount, hrk]
  exact ⟨rfl, rfl, rfl, rfl, rfl⟩

/-- Witness for C6 at concrete inputs. -/
theorem no_searchable_fields_abort_witness :
    jsStrTruthy counterC6state.currentNamespaceId = true ∧
    counterC6state.queryMode = .bm25 ∧ jsTrim counterC6state.searchText ≠ "" ∧
    counterC6state.bm25Fields = [] ∧
    potentialBM25Fields counterC6state.attributes = [] ∧
    (loadDocuments counterC6backend (fun _ => []) 0 counterC6state true false 100 1).2.2 =
      .noSearchableFields ∧
    (loadDocuments counterC6backend (fun _ => []) 0 counterC6state true false 100 1).2.1.length = 1 :=
  ⟨by decide, rfl, by decide, rfl, by decide,
    (no_searchable_fields_abort counterC6backend (fun _ => []) 0 counterC6state false 100 1
      { rows := [], aggregations := some [("count", .n 0)] }
      (by decide) rfl rfl rfl (by decide) rfl (by decide) (Or.inl (by decide)) (by decide)).1,
    (no_searchable_fields_abort counterC6backend (fun _ => []) 0 counterC6state false 100 1
      { rows := [], aggregations := some [("count", .n 0)] }
      (by decide) rfl rfl rfl (by decide) rfl (by decide) (Or.inl (by decide)) (by decide)).2.2.2.2⟩

/-- C6 counterexample: the concrete no-searchable-fields load issues one
network call (the count sub-query), not zero as the claim states. -/
theorem no_searchable_fields_abort_counterexample :
    counterC6state.queryMode = .bm25 ∧ counterC6state.searchText = "hello" ∧
    counterC6state.bm25Fields = [] ∧
    potentialBM25Fields counterC6state.attributes = [] ∧
    (loadDocuments counterC6backend (fun _ => []) 0 counterC6state true false 100 1).1.error =
      some noSearchableFieldsMsg ∧
    (loadDocuments counterC6backend (fun _ => []) 0 counterC6state true false 100 1).2.1.length = 1 ∧
    (loadDocuments counterC6backend (fun _ => []) 0 counterC6state true false 100 1).2.1.length ≠ 0 := by
  exact ⟨rfl, rfl, rfl, by decide, by decide, by decide, by decide⟩

/-- A rejected call on the query path surfaces the message and leaves the
result-set and pagination fields untouched. -/
theorem loadQueryPath_failed (B : Backend)
    (discover : List Document → List DiscoveredAttribute) (now : Nat)
    (s : DocState) (limit page : Nat) (msg : String)
    (out : DocState × List BackendQuery × LoadOutcome)
    (heq : loadQueryPath B discover now s limit page = out)
    (h : out.2.2 = .failed msg) :
    out.1.error = some msg ∧ out.1.isLoading = false ∧
    out.1.documents = s.documents ∧ out.1.totalCount = s.totalCount ∧
    out.1.currentPage = s.currentPage ∧
    out.1.previousCursors = s.previousCursors ∧
    out.1.nextCursor = s.nextCursor := by
  unfold loadQueryPath at heq
  cases hcq : B (countQueryRequest (combineFilters (buildQueryFilters s))) with
  | error e =>
    simp only [hcq] at heq
    rw [← heq] at h ⊢
    cases h
    exact ⟨rfl, rfl, rfl, rfl, rfl, rfl, rfl⟩
  | ok countResp =>
    simp only [hcq] at heq
    cases hrk : computeRankBy s with
    | error u =>
      simp only [hrk] at heq
      rw [← heq] at h
      simp at h
    | ok rankBy =>
      simp only [hrk] at heq
      cases hpq : B (primaryRequestFor s limit page rankBy) with
      | error e =>
        simp only [hpq] at heq
        rw [← heq] at h ⊢
        cases h
        exact ⟨rfl, rfl, rfl, rfl, rfl, rfl, rfl⟩
      | ok result =>
        simp only [hpq] at heq
        rw [← heq] at h
        simp at h

/-- A rejected call on the browse path surfaces the message and leaves the
result-set and pagination fields untouched. -/
theorem loadBrowsePath_failed (B : Backend)
    (discover : List Document → List DiscoveredAttribute) (now : Nat)
    (s : DocState) (force : Bool) (limit page : Nat) (msg : String)
    (out : DocState × List BackendQuery × LoadOutcome)
    (heq : loadBrowsePath B discover now s force limit page = out)
    (h : out.2.2 = .failed msg) :
    out.1.error = some msg ∧ out.1.isLoading = false ∧
    out.1.documents = s.documents ∧ out.1.totalCount = s.totalCount ∧
    out.1.currentPage = s.currentPage ∧
    out.1.previousCursors = s.previousCursors ∧
    out.1.nextCursor = s.nextCursor := by
  unfold loadBrowsePath at heq
  cases hcs : browseCountStep B s force with
  | error e =>
    simp only [hcs] at heq
    rw [← heq] at h ⊢
    cases h
    exact ⟨rfl, rfl, rfl, rfl, rfl, rfl, rfl⟩
  | ok pair =>
    obtain ⟨totalCount, countLog⟩ := pair
    simp only [hcs] at heq
    cases hpq : B (browseQueryRequest s limit page) with
    | error e =>
      simp only [hpq] at heq
      rw [← heq] at h ⊢
      cases h
      exact ⟨rfl, rfl, rfl, rfl, rfl, rfl, rfl⟩
    | ok result =>
      simp only [hpq] at heq
      rw [← heq] at h
      simp at h

/-- A backend that rejects every request. -/
def witnessC8backend : Backend := fun _ => .error "boom"

/-- A concrete state with a previously loaded page 1. -/
def witnessC8state : DocState :=
  { currentNamespaceId := some "ns", currentConnectionId := some "c",
    isClientInitialized := true,
    documents := [⟨.s "d1", []⟩, ⟨.s "d2", []⟩],
    totalCount := some 2, unfilteredTotalCount := some 2,
    currentPage := 1, nextCursor := some (.s "d2") }

/-- C8: whenever the execution capability rejects (the load ends in the
`catch` block, outcome `failed`), the resulting state carries the error
message, `isLoading` is false, and `documents`, `totalCount`,
`currentPage`, `previousCursors` and `nextCursor` keep their values from
before the failing call — the previous result set is not cleared. -/
theorem load_failure_preserves_results (B : Backend)
    (discover : List Document → List DiscoveredAttribute) (now : Nat)
    (s : DocState) (force loadMore : Bool) (limit page : Nat) (msg : String)
    (out : DocState × List BackendQuery × LoadOutcome)
    (heq : loadDocuments B discover now s force loadMore limit page = out)
    (h : out.2.2 = .failed msg) :
    out.1.error = some msg ∧ out.1.isLoading = false ∧
    out.1.documents = s.documents ∧ out.1.totalCount = s.totalCount ∧
    out.1.currentPage = s.currentPage ∧
    out.1.previousCursors = s.previousCursors ∧
    out.1.nextCursor = s.nextCursor := by
  unfold loadDocuments at heq
  split at heq
  · rw [← heq] at h; simp at h
  · split at heq
    · rw [← heq] at h; simp at h
    · cases hc : cachedEntryFor force s.documentsCache (cacheKeyFor s page limit) now with
      | some cached =>
        simp only [hc] at heq
        rw [← heq] at h
        simp at h
      | none =>
        simp only [hc] at heq
        by_cases hq2 : shouldUseQueryMode s = true
        · rw [if_pos hq2] at heq
          exact loadQueryPath_failed B discover now s limit page msg out heq h
        · rw [if_neg hq2] at heq
          exact loadBrowsePath_failed B discover now s force limit page msg out heq h

/-- Witness for C8: a backend that rejects every call with `"boom"` leaves
the prior documents, counts, page and cursors intact and surfaces the
message. -/
theorem load_failure_preserves_results_witness :
    (loadDocuments witnessC8backend (fun _ => []) 0 witnessC8state true false 100 2).2.2 =
      .failed "boom" ∧
    ((loadDocuments witnessC8backend (fun _ => []) 0 witnessC8state true false 100 2).1.error =
        some "boom" ∧
      (loadDocuments witnessC8backend (fun _ => []) 0 witnessC8state true false 100 2).1.isLoading = false ∧
      (loadDocuments witnessC8backend (fun _ => []) 0 witnessC8state true false 100 2).1.documents =
        witnessC8state.documents ∧
      (loadDocuments witnessC8backend (fun _ => []) 0 witnessC8state true false 100 2).1.totalCount =
        witnessC8state.totalCount ∧
      (loadDocuments witnessC8backend (fun _ => []) 0 witnessC8state true false 100 2).1.currentPage =
        witnessC8state.currentPage ∧
      (loadDocuments witnessC8backend (fun _ => []) 0 witnessC8state true false 100 2).1.previousCursors =
        witnessC8state.previousCursors ∧
      (loadDocuments witnessC8backend (fun _ => []) 0 witnessC8state true false 100 2).1.nextCursor =
        witnessC8state.nextCursor) :=
  ⟨by decide,
    load_failure_preserves_results witnessC8backend (fun _ => []) 0 witnessC8state true false
      100 2 "boom" (loadDocuments witnessC8backend (fun _ => []) 0 witnessC8state true false 100 2)
      rfl (by decide)⟩

/-- Attribute discovery only ever rewrites `attributes`: every other field
survives. -/
theorem applyDiscovery_preserves (d : List Document → List DiscoveredAttribute)
    (docs : List Document) (s : DocState) :
    (applyDiscovery d docs s).documents = s.documents ∧
    (applyDiscovery d docs s).totalCount = s.totalCount ∧
    (applyDiscovery d docs s).unfilteredTotalCount = s.unfilteredTotalCount ∧
    (applyDiscovery d docs s).previousCursors = s.previousCursors ∧
    (applyDiscovery d docs s).currentPage = s.currentPage ∧
    (applyDiscovery d docs s).nextCursor = s.nextCursor ∧
    (applyDiscovery d docs s).isLoading = s.isLoading ∧
    (applyDiscovery d docs s).error = s.error ∧
    (applyDiscovery d docs s).currentNamespaceId = s.currentNamespaceId ∧
    (applyDiscovery d docs s).currentConnectionId = s.currentConnectionId ∧
    (applyDiscovery d docs s).isClientInitialized = s.isClientInitialized ∧
    (applyDiscovery d docs s).searchText = s.searchText ∧
    (applyDiscovery d docs s).activeFilters = s.activeFilters ∧
    (applyDiscovery d docs s).queryMode = s.queryMode ∧
    (applyDiscovery d docs s).bm25Fields = s.bm25Fields ∧
    (applyDiscovery d docs s).rankingMode = s.rankingMode ∧
    (applyDiscovery d docs s).rankingExpression = s.rankingExpression := by
  cases docs <;> exact ⟨rfl, rfl, rfl, rfl, rfl, rfl, rfl, rfl, rfl, rfl, rfl, rfl,
    rfl, rfl, rfl, rfl, rfl⟩

/-- A concrete non-forced state whose cache holds a fresh page-1 entry. -/
def witnessC7state : DocState :=
  { currentNamespaceId := some "ns", currentConnectionId := some "c",
    isClientInitialized := true,
    documentsCache := [(⟨some "c", some "ns", "", [], 1, 100⟩,
      { documents := [⟨.s "x", []⟩], totalCount := some 7, timestamp := 0 })] }

/-- A concrete query-mode state (one filter) whose cache entry for the
requested page has expired. -/
def counterC7state : DocState :=
  { currentNamespaceId := some "ns", currentConnectionId := some "c",
    isClientInitialized := true,
    attributes := [⟨"status", "string"⟩],
    activeFilters := [⟨"f1", "status", .equals, .s "published", "published"⟩],
    documentsCache := [(⟨some "c", some "ns", "",
      [⟨"f1", "status", .equals, .s "published", "published"⟩], 1, 100⟩,
      { documents := [⟨.s "x", []⟩], totalCount := some 7, timestamp := 0 })] }

/-- A stable backend used by the C7 statements. -/
def c7backendResponse : QueryResponse :=
  { rows := [⟨.s "d1", []⟩], aggregations := some [("count", .n 1)] }

/-- The C7 backend: every request succeeds with `c7backendResponse`. -/
def counterC7backend : Backend := fun _ => .ok c7backendResponse

/-- C7 (amended): a non-forced load whose cache entry for the structured
key is younger than the 5-minute TTL issues zero backend calls and returns
the cached rows and total count. A load whose entry is at least TTL old
ignores it and goes to the network — but not always with exactly one call:
the primary paginated query is issued once, preceded by a count sub-query
exactly when the load is in query mode or the browse totals are missing,
so such a load issues two calls in that case and one otherwise. -/
theorem cache_ttl_behavior (B : Backend) (f : BackendQuery → QueryResponse)
    (discover : List Document → List DiscoveredAttribute) (now : Nat)
    (s : DocState) (loadMore : Bool) (limit page : Nat)
    (hns : jsStrTruthy s.currentNamespaceId = true) (hload : s.isLoading = false)
    (hinit : s.isClientInitialized = true) :
    (∀ e, cacheFresh s.documentsCache (cacheKeyFor s page limit) now = some e →
      (loadDocuments B discover now s false loadMore limit page).2.1 = [] ∧
      (loadDocuments B discover now s false loadMore limit page).2.2 = .cachedHit ∧
      (loadDocuments B discover now s false loadMore limit page).1.documents = e.documents ∧
      (loadDocuments B discover now s false loadMore limit page).1.totalCount = e.totalCount) ∧
    (∀ e, (∀ q, B q = .ok (f q)) → computeRankBy s ≠ .error () →
      cacheLookup s.documentsCache (cacheKeyFor s page limit) = some e →
      ¬(now - e.timestamp < CACHE_DURATION) →
      (loadDocuments B discover now s false loadMore limit page).2.2 = .success ∧
      (loadDocuments B discover now s false loadMore limit page).2.1.length =
        (if shouldUseQueryMode s = true ∨ s.totalCount = none ∨ s.unfilteredTotalCount = none
         then 2 else 1)) := by
  constructor
  · intro e hfresh
    have hc : cachedEntryFor false s.documentsCache (cacheKeyFor s page limit) now = some e := by
      unfold cachedEntryFor
      simpa using hfresh
    unfold loadDocuments
    rw [hns, hload, hinit]
    simp only [Bool.true_eq_false, Bool.not_true, false_or, reduceIte,
      Bool.false_eq_true, not_false_iff]
    simp only [hc]
    exact ⟨rfl, rfl, (applyDiscovery_preserves discover e.documents _).1,
      (applyDiscovery_preserves discover e.documents _).2.1⟩
  · intro e hB hrk hlookup hstale
    have hc : cachedEntryFor false s.documentsCache (cacheKeyFor s page limit) now = none := by
      unfold cachedEntryFor cacheFresh
      rw [hlookup]
      simp [hstale]
    unfold loadDocuments
    rw [hns, hload, hinit]
    simp only [Bool.true_eq_false, Bool.not_true, false_or, reduceIte,
      Bool.false_eq_true, not_false_iff]
    simp only [hc]
    simp only [not_true, false_or, or_false, not_false_iff, reduceIte, if_true, if_false]
    by_cases hq2 : shouldUseQueryMode s = true
    · rw [if_pos hq2]
      simp only [loadQueryPath]
      rw [hB (countQueryRequest (combineFilters (buildQueryFilters s)))]
      simp only []
      cases hrkc : computeRankBy s with
      | error u => exact absurd (by rw [hrkc]) hrk
      | ok rankBy =>
        simp only [hrkc]
        rw [hB (primaryRequestFor s limit page rankBy)]
        simp only []
        exact ⟨by trivial, by simp [hq2]⟩
    · rw [if_neg hq2]
      simp only [loadBrowsePath]
      by_cases hn : s.totalCount = none ∨ s.unfilteredTotalCount = none
      · have hcs : browseCountStep B s false = .ok (extractCount (f (countQueryRequest none)),
            [countQueryRequest none]) := by
          unfold browseCountStep
          rw [hB (countQueryRequest none)]
          simp [hn]
        rw [hcs]
        simp only []
        rw [hB (browseQueryRequest s limit page)]
        simp only []
        refine ⟨by trivial, ?_⟩
        have : (shouldUseQueryMode s = true ∨ s.totalCount = none ∨
            s.unfilteredTotalCount = none) := Or.inr hn
        simp [this]
      · have hcs : browseCountStep B s false = .ok (s.totalCount.getD 0, []) := by
          unfold browseCountStep
          simp only [Bool.false_eq_true, false_or]
          rw [if_neg hn]
        rw [hcs]
        simp only []
        rw [hB (browseQueryRequest s limit page)]
        simp only []
        refine ⟨by trivial, ?_⟩
        have hor : ¬(shouldUseQueryMode s = true ∨ s.totalCount = none ∨
            s.unfilteredTotalCount = none) := by
          intro hx
          rcases hx with hx | hx
          · exact hq2 hx
          · exact hn hx
        simp [hor]

/-- Witness for C7, fresh-hit side: the cached rows and count come back
with zero calls. -/
theorem cache_ttl_behavior_witness :
    cacheFresh witnessC7state.documentsCache (cacheKeyFor witnessC7state 1 100) 100 =
      some { documents := [⟨.s "x", []⟩], totalCount := some 7, timestamp := 0 } ∧
    ((loadDocuments counterC7backend (fun _ => []) 100 witnessC7state false false 100 1).2.1 = [] ∧
     (loadDocuments counterC7backend (fun _ => []) 100 witnessC7state false false 100 1).2.2 = .cachedHit ∧
     (loadDocuments counterC7backend (fun _ => []) 100 witnessC7state false false 100 1).1.documents =
       [⟨.s "x", []⟩] ∧
     (loadDocuments counterC7backend (fun _ => []) 100 witnessC7state false false 100 1).1.totalCount =
       some 7) :=
  ⟨by decide,
    (cache_ttl_behavior counterC7backend (fun _ => c7backendResponse) (fun _ => []) 100
      witnessC7state false 100 1 (by decide) rfl rfl).1
      { documents := [⟨.s "x", []⟩], totalCount := some 7, timestamp := 0 } (by decide)⟩

/-- C7 counterexample: a non-forced query-mode load with an expired cache
entry issues two network calls (count sub-query plus primary query), not
exactly one as the claim states. -/
theorem cache_ttl_behavior_counterexample :
    cacheLookup counterC7state.documentsCache (cacheKeyFor counterC7state 1 100) =
      some { documents := [⟨.s "x", []⟩], totalCount := some 7, timestamp := 0 } ∧
    ¬(600000 - 0 < CACHE_DURATION) ∧
    (loadDocuments counterC7backend (fun _ => []) 600000 counterC7state false false 100 1).2.2 =
      .success ∧
    (loadDocuments counterC7backend (fun _ => []) 600000 counterC7state false false 100 1).2.1.length = 2 ∧
    (loadDocuments counterC7backend (fun _ => []) 600000 counterC7state false false 100 1).2.1.length ≠ 1 := by
  exact ⟨by decide, by decide, by decide, by decide, by decide⟩

/-- When the configuration cannot trigger the no-searchable-fields abort,
the `rank_by` selection succeeds. -/
theorem computeRankBy_isOk (s : DocState)
    (hok : s.bm25Fields ≠ [] ∨ s.queryMode ≠ .bm25 ∨ jsTrim s.searchText = "" ∨
      (s.rankingMode = .expression ∧ s.rankingExpression ≠ none)) :
    ∃ rb, computeRankBy s = .ok rb := by
  by_cases hx : s.rankingMode = .expression ∧ s.rankingExpression ≠ none
  · obtain ⟨hm, he⟩ := hx
    cases hee : s.rankingExpression with
    | none => exact absurd hee he
    | some e =>
      refine ⟨convertRankingExprToTurbopuffer e, ?_⟩
      unfold computeRankBy
      rw [hm, hee]
  · have hnotExpr : s.rankingMode ≠ .expression ∨ s.rankingExpression = none := by
      by_cases hm : s.rankingMode = .expression
      · by_cases he : s.rankingExpression = none
        · exact Or.inr he
        · exact absurd ⟨hm, he⟩ hx
      · exact Or.inl hm
    rw [computeRankBy_not_expression s hnotExpr]
    by_cases hbm : (s.queryMode = .bm25 ∧ jsTrim s.searchText ≠ "")
    · rw [if_pos hbm]
      have hf : s.bm25Fields ≠ [] := by
        rcases hok with h | h | h | h
        · exact h
        · exact absurd hbm.1 h
        · exact absurd h hbm.2
        · exact absurd h hx
      cases hfl : s.bm25Fields with
      | nil => exact absurd hfl hf
      | cons f rest =>
        cases rest with
        | nil => exact ⟨_, by unfold bm25RankBy; rw [hfl]⟩
        | cons f2 r2 => exact ⟨_, by unfold bm25RankBy; rw [hfl]⟩
    · rw [if_neg hbm]
      by_cases hv : (s.queryMode = .vector ∧ (s.vectorQuery.getD []) ≠ [])
      · rw [if_pos hv]; exact ⟨_, rfl⟩
      · rw [if_neg hv]; exact ⟨_, rfl⟩

/-- A forced load against an always-succeeding backend whose every
response carries the same row list `ROWS` succeeds, issues at least one
request, lands on the target page with `ROWS` as the documents, performs
the cursor-stack update, and preserves the query configuration. -/
theorem load_force_ok (B : Backend) (f : BackendQuery → QueryResponse)
    (ROWS : List Document) (discover : List Document → List DiscoveredAttribute)
    (now : Nat) (s : DocState) (loadMore : Bool) (limit page : Nat)
    (hB : ∀ q, B q = .ok (f q)) (hrows : ∀ q, (f q).rows = ROWS)
    (hns : jsStrTruthy s.currentNamespaceId = true) (hload : s.isLoading = false)
    (hinit : s.isClientInitialized = true)
    (hok : s.bm25Fields ≠ [] ∨ s.queryMode ≠ .bm25 ∨ jsTrim s.searchText = "" ∨
      (s.rankingMode = .expression ∧ s.rankingExpression ≠ none)) :
    ∃ s2 log, loadDocuments B discover now s true loadMore limit page = (s2, log, .success) ∧
      log ≠ [] ∧
      s2.documents = ROWS ∧
      s2.currentPage = page ∧
      s2.previousCursors = updatePrevCursors s page ∧
      s2.isLoading = false ∧
      s2.currentNamespaceId = s.currentNamespaceId ∧
      s2.isClientInitialized = true ∧
      s2.searchText = s.searchText ∧
      s2.activeFilters = s.activeFilters ∧
      s2.queryMode = s.queryMode ∧
      s2.bm25Fields = s.bm25Fields ∧
      s2.rankingMode = s.rankingMode ∧
      s2.rankingExpression = s.rankingExpression := by
  have hc : cachedEntryFor true s.documentsCache (cacheKeyFor s page limit) now = none := rfl
  unfold loadDocuments
  rw [hns, hload, hinit]
  simp only [Bool.true_eq_false, Bool.not_true, false_or, reduceIte,
    Bool.false_eq_true, not_false_iff]
  simp only [hc]
  simp only [not_true, false_or, or_false, not_false_iff, reduceIte, if_true, if_false]
  by_cases hq2 : shouldUseQueryMode s = true
  · rw [if_pos hq2]
    simp only [loadQueryPath]
    rw [hB (countQueryRequest (combineFilters (buildQueryFilters s)))]
    simp only []
    obtain ⟨rb, hrkOk⟩ := computeRankBy_isOk s hok
    simp only [hrkOk]
    rw [hB (primaryRequestFor s limit page rb)]
    simp only []
    refine ⟨_, _, rfl, by simp, ?_, ?_, ?_, ?_, ?_, ?_, ?_, ?_, ?_, ?_, ?_, ?_⟩
    · exact ((applyDiscovery_preserves _ _ _).1).trans (hrows _)
    · exact (applyDiscovery_preserves _ _ _).2.2.2.2.1
    · exact (applyDiscovery_preserves _ _ _).2.2.2.1
    · exact (applyDiscovery_preserves _ _ _).2.2.2.2.2.2.1
    · exact (applyDiscovery_preserves _ _ _).2.2.2.2.2.2.2.2.1
    · exact ((applyDiscovery_preserves _ _ _).2.2.2.2.2.2.2.2.2.2.1).trans hinit
    · exact (applyDiscovery_preserves _ _ _).2.2.2.2.2.2.2.2.2.2.2.1
    · exact (applyDiscovery_preserves _ _ _).2.2.2.2.2.2.2.2.2.2.2.2.1
    · exact (applyDiscovery_preserves _ _ _).2.2.2.2.2.2.2.2.2.2.2.2.2.1
    · exact (applyDiscovery_preserves _ _ _).2.2.2.2.2.2.2.2.2.2.2.2.2.2.1
    · exact (applyDiscovery_preserves _ _ _).2.2.2.2.2.2.2.2.2.2.2.2.2.2.2.1
    · exact (applyDiscovery_preserves _ _ _).2.2.2.2.2.2.2.2.2.2.2.2.2.2.2.2
  · rw [if_neg hq2]
    simp only [loadBrowsePath]
    have hcs : browseCountStep B s true = .ok (extractCount (f (countQueryRequest none)),
        [countQueryRequest none]) := by
      unfold browseCountStep
      rw [hB (countQueryRequest none)]
      simp
    rw [hcs]
    simp only []
    rw [hB (browseQueryRequest s limit page)]
    simp only []
    refine ⟨_, _, rfl, by simp, ?_, ?_, ?_, ?_, ?_, ?_, ?_, ?_, ?_, ?_, ?_, ?_⟩
    · exact ((applyDiscovery_preserves _ _ _).1).trans (hrows _)
    · exact (applyDiscovery_preserves _ _ _).2.2.2.2.1
    · exact (applyDiscovery_preserves _ _ _).2.2.2.1
    · exact (applyDiscovery_preserves _ _ _).2.2.2.2.2.2.1
    · exact (applyDiscovery_preserves _ _ _).2.2.2.2.2.2.2.2.1
    · exact ((applyDiscovery_preserves _ _ _).2.2.2.2.2.2.2.2.2.2.1).trans hinit
    · exact (applyDiscovery_preserves _ _ _).2.2.2.2.2.2.2.2.2.2.2.1
    · exact (applyDiscovery_preserves _ _ _).2.2.2.2.2.2.2.2.2.2.2.2.1
    · exact (applyDiscovery_preserves _ _ _).2.2.2.2.2.2.2.2.2.2.2.2.2.1
    · exact (applyDiscovery_preserves _ _ _).2.2.2.2.2.2.2.2.2.2.2.2.2.2.1
    · exact (applyDiscovery_preserves _ _ _).2.2.2.2.2.2.2.2.2.2.2.2.2.2.2.1
    · exact (applyDiscovery_preserves _ _ _).2.2.2.2.2.2.2.2.2.2.2.2.2.2.2.2

/-- Re-entering page 1 never resolves a pagination cursor once the current
page is at least 1 (the backward index `1 - 2` is out of range). -/
theorem cursorForPage_page_one (s : DocState) (h : 1 ≤ s.currentPage) :
    cursorForPage s 1 = none := by
  unfold cursorForPage
  rw [if_neg (by intro hx; omega)]
  by_cases h2 : (1 < s.currentPage ∧ ¬s.previousCursors.isEmpty = true)
  · rw [if_pos h2]
    norm_num
  · rw [if_neg h2]

/-- Landing on page 1 from page 2 clears the cursor stack. -/
theorem updatePrevCursors_back_to_one (s : DocState) (h : s.currentPage = 2) :
    updatePrevCursors s 1 = [] := by
  unfold updatePrevCursors
  rw [if_neg (by omega), if_pos rfl]

/-- The stable two-row response of the C5 witness backend. -/
def witnessC5response : QueryResponse :=
  { rows := [⟨.s "d1", []⟩, ⟨.s "d2", []⟩], aggregations := some [("count", .n 2)] }

/-- A backend returning the same ordered row set on every call. -/
def witnessC5backend : Backend := fun _ => .ok witnessC5response

/-- A concrete browse-mode state for the C5 witness. -/
def witnessC5state : DocState :=
  { currentNamespaceId := some "ns", currentConnectionId := some "c",
    isClientInitialized := true }

/-- C5: with a fixed configuration and a stable backend returning the same
ordered row set on every call, the forced load sequence page 1, page 2
(forward), page 1 (backward) succeeds; the third load issues its requests
with no cursor predicate (the cursor tracker resolves none for page 1),
returns exactly the row set of the original page-1 fetch, and leaves
`previousCursors` empty. -/
theorem forward_backward_navigation (B : Backend) (f : BackendQuery → QueryResponse)
    (ROWS : List Document) (discover : List Document → List DiscoveredAttribute)
    (now1 now2 now3 : Nat) (s : DocState) (loadMore : Bool) (limit : Nat)
    (hB : ∀ q, B q = .ok (f q)) (hrows : ∀ q, (f q).rows = ROWS)
    (hns : jsStrTruthy s.currentNamespaceId = true) (hload : s.isLoading = false)
    (hinit : s.isClientInitialized = true)
    (hok : s.bm25Fields ≠ [] ∨ s.queryMode ≠ .bm25 ∨ jsTrim s.searchText = "" ∨
      (s.rankingMode = .expression ∧ s.rankingExpression ≠ none)) :
    (loadDocuments B discover now3
      (loadDocuments B discover now2
        (loadDocuments B discover now1 s true loadMore limit 1).1
        true loadMore limit 2).1
      true loadMore limit 1).2.2 = .success ∧
    (loadDocuments B discover now3
      (loadDocuments B discover now2
        (loadDocuments B discover now1 s true loadMore limit 1).1
        true loadMore limit 2).1
      true loadMore limit 1).1.documents =
      (loadDocuments B discover now1 s true loadMore limit 1).1.documents ∧
    (loadDocuments B discover now3
      (loadDocuments B discover now2
        (loadDocuments B discover now1 s true loadMore limit 1).1
        true loadMore limit 2).1
      true loadMore limit 1).1.previousCursors = [] ∧
    cursorForPage
      (loadDocuments B discover now2
        (loadDocuments B discover now1 s true loadMore limit 1).1
        true loadMore limit 2).1 1 = none ∧
    (loadDocuments B discover now3
      (loadDocuments B discover now2
        (loadDocuments B discover now1 s true loadMore limit 1).1
        true loadMore limit 2).1
      true loadMore limit 1).2.1 ≠ [] := by
  obtain ⟨s1, log1, heq1, hlog1, hdoc1, hcp1, hprev1, hload1, hns1, hinit1, hst1, haf1,
    hqm1, hbf1, hrm1, hre1⟩ :=
    load_force_ok B f ROWS discover now1 s loadMore limit 1 hB hrows hns hload hinit hok
  have hr1 : (loadDocuments B discover now1 s true loadMore limit 1).1 = s1 := by rw [heq1]
  have hns1t : jsStrTruthy s1.currentNamespaceId = true := by rw [hns1]; exact hns
  have hok1 : s1.bm25Fields ≠ [] ∨ s1.queryMode ≠ .bm25 ∨ jsTrim s1.searchText = "" ∨
      (s1.rankingMode = .expression ∧ s1.rankingExpression ≠ none) := by
    rcases hok with h | h | h | h
    · exact Or.inl (by rw [hbf1]; exact h)
    · exact Or.inr (Or.inl (by rw [hqm1]; exact h))
    · exact Or.inr (Or.inr (Or.inl (by rw [hst1]; exact h)))
    · exact Or.inr (Or.inr (Or.inr ⟨by rw [hrm1]; exact h.1, by rw [hre1]; exact h.2⟩))
  obtain ⟨s2, log2, heq2, hlog2, hdoc2, hcp2, hprev2, hload2, hns2, hinit2, hst2, haf2,
    hqm2, hbf2, hrm2, hre2⟩ :=
    load_force_ok B f ROWS discover now2 s1 loadMore limit 2 hB hrows hns1t hload1 hinit1 hok1
  have hr2 : (loadDocuments B discover now2 s1 true loadMore limit 2).1 = s2 := by rw [heq2]
  have hns2t : jsStrTruthy s2.currentNamespaceId = true := by rw [hns2]; exact hns1t
  have hok2 : s2.bm25Fields ≠ [] ∨ s2.queryMode ≠ .bm25 ∨ jsTrim s2.searchText = "" ∨
      (s2.rankingMode = .expression ∧ s2.rankingExpression ≠ none) := by
    rcases hok1 with h | h | h | h
    · exact Or.inl (by rw [hbf2]; exact h)
    · exact Or.inr (Or.inl (by rw [hqm2]; exact h))
    · exact Or.inr (Or.inr (Or.inl (by rw [hst2]; exact h)))
    · exact Or.inr (Or.inr (Or.inr ⟨by rw [hrm2]; exact h.1, by rw [hre2]; exact h.2⟩))
  obtain ⟨s3, log3, heq3, hlog3, hdoc3, hcp3, hprev3, hload3, hns3, hinit3, hst3, haf3,
    hqm3, hbf3, hrm3, hre3⟩ :=
    load_force_ok B f ROWS discover now3 s2 loadMore limit 1 hB hrows hns2t hload2 hinit2 hok2
  have hr3 : loadDocuments B discover now3 s2 true loadMore limit 1 = (s3, log3, .success) := heq3
  rw [hr1, hr2, hr3]
  refine ⟨rfl, ?_, ?_, ?_, ?_⟩
  · exact hdoc3.trans (hdoc1.symm)
  · rw [hprev3]
    exact updatePrevCursors_back_to_one s2 hcp2
  · exact cursorForPage_page_one s2 (by omega)
  · exact hlog3

/-- Witness for C5 at concrete inputs: a browse-mode state, a backend that
always returns the same two rows. -/
theorem forward_backward_navigation_witness :
    (loadDocuments witnessC5backend (fun _ => []) 2
      (loadDocuments witnessC5backend (fun _ => []) 1
        (loadDocuments witnessC5backend (fun _ => []) 0 witnessC5state true false 100 1).1
        true false 100 2).1
      true false 100 1).2.2 = .success ∧
    (loadDocuments witnessC5backend (fun _ => []) 2
      (loadDocuments witnessC5backend (fun _ => []) 1
        (loadDocuments witnessC5backend (fun _ => []) 0 witnessC5state true false 100 1).1
        true false 100 2).1
      true false 100 1).1.documents =
      (loadDocuments witnessC5backend (fun _ => []) 0 witnessC5state true false 100 1).1.documents ∧
    (loadDocuments witnessC5backend (fun _ => []) 2
      (loadDocuments witnessC5backend (fun _ => []) 1
        (loadDocuments witnessC5backend (fun _ => []) 0 witnessC5state true false 100 1).1
        true false 100 2).1
      true false 100 1).1.previousCursors = [] ∧
    cursorForPage
      (loadDocuments witnessC5backend (fun _ => []) 1
        (loadDocuments witnessC5backend (fun _ => []) 0 witnessC5state true false 100 1).1
        true false 100 2).1 1 = none ∧
    (loadDocuments witnessC5backend (fun _ => []) 2
      (loadDocuments witnessC5backend (fun _ => []) 1
        (loadDocuments witnessC5backend (fun _ => []) 0 witnessC5state true false 100 1).1
        true false 100 2).1
      true false 100 1).2.1 ≠ [] :=
  forward_backward_navigation witnessC5backend (fun _ => witnessC5response)
    [⟨.s "d1", []⟩, ⟨.s "d2", []⟩] (fun _ => []) 0 1 2 witnessC5state false 100
    (fun _ => rfl) (fun _ => rfl) (by decide) rfl rfl
    (Or.inr (Or.inl (by decide)))

end TpufGui
